import Mathlib

/-
  Verification development for the Bangladesh food-security simulation
  (run_full_simulation.py and the domain models under src/models/).

  Python floats are modelled as exact rationals.  To keep every definition
  kernel-computable we represent a rational as an explicit
  numerator/denominator pair of integers (`Frac`) whose denominator is kept
  positive by construction; `Frac.toRat` maps into Mathlib's ℚ and the
  bridge lemmas below show the operations agree with rational arithmetic.
-/

/-- An unreduced fraction: numerator and (intended positive) denominator. -/
structure Frac where
  n : Int
  d : Int
deriving DecidableEq, Repr

namespace Frac

/-- The rational value of a fraction. -/
def toRat (f : Frac) : ℚ := (f.n : ℚ) / (f.d : ℚ)

/-- Well-formedness: the denominator is positive. -/
def Wf (f : Frac) : Prop := 0 < f.d

instance (f : Frac) : Decidable f.Wf := by
  unfold Wf
  infer_instance

/-- Embed an integer. -/
def ofInt (z : Int) : Frac := ⟨z, 1⟩

instance (k : Nat) : OfNat Frac k := ⟨ofInt k⟩

/-- A decimal-style literal: numerator over positive denominator. -/
def mkq (n d : Int) : Frac := ⟨n, d⟩

def add (a b : Frac) : Frac := ⟨a.n * b.d + b.n * a.d, a.d * b.d⟩

def sub (a b : Frac) : Frac := ⟨a.n * b.d - b.n * a.d, a.d * b.d⟩

def mul (a b : Frac) : Frac := ⟨a.n * b.n, a.d * b.d⟩

def neg (a : Frac) : Frac := ⟨-a.n, a.d⟩

/-- Division; sign is normalised so a positive denominator stays positive.
Division by a zero value yields 0 (all call sites in the source guard the
divisor, mirroring Python which would raise there). -/
def div (a b : Frac) : Frac :=
  if 0 < b.n then ⟨a.n * b.d, a.d * b.n⟩
  else if b.n < 0 then ⟨-(a.n * b.d), -(a.d * b.n)⟩
  else ⟨0, 1⟩

/-- Boolean comparison a ≤ b, valid for positive denominators. -/
def ble (a b : Frac) : Bool := decide (a.n * b.d ≤ b.n * a.d)

/-- Boolean comparison a < b, valid for positive denominators. -/
def blt (a b : Frac) : Bool := decide (a.n * b.d < b.n * a.d)

/-- Boolean value equality (cross multiplication), valid for positive
denominators. -/
def beqv (a b : Frac) : Bool := decide (a.n * b.d = b.n * a.d)

/-- Python max(a, b): returns b exactly when a < b. -/
def pymax (a b : Frac) : Frac := if blt a b then b else a

/-- Python min(a, b): returns b exactly when b < a. -/
def pymin (a b : Frac) : Frac := if blt b a then b else a

end Frac

/-
  Python values flowing between the models: numbers (floats/ints), strings,
  nested dicts with string keys, and None.  Lists of floats appear only in
  the aggregation stage and are modelled there directly.
-/

/-- A dynamic Python value (the inter-model data contract). -/
inductive PyVal where
  | num (x : Frac)
  | str (s : String)
  | dict (es : List (String × PyVal))
  | list (vs : List PyVal)
  | pynone

/-- Exceptions that the embedded code can raise. -/
inductive PyErr where
  | keyError (k : String)
  | attributeError
  | typeError
  | nameError (ident : String)
  | zeroDivision
deriving DecidableEq, Repr

namespace PyVal

/-- First-match association-list lookup (Python dict lookup). -/
def alookup : List (String × PyVal) → String → Option PyVal
  | [], _ => none
  | (k, v) :: rest, key => if k = key then some v else alookup rest key

/-- Python dict.get(key, default) on a value that is known to be a dict
at the call site; a non-dict receiver yields the default. -/
def get (v : PyVal) (key : String) (dflt : PyVal) : PyVal :=
  match v with
  | .dict es => (alookup es key).getD dflt
  | _ => dflt

/-- Python dict[key]: raises KeyError when absent, AttributeError-like
failure when the receiver is not a dict. -/
def item (v : PyVal) (key : String) : Except PyErr PyVal :=
  match v with
  | .dict es =>
    match alookup es key with
    | some w => .ok w
    | none => .error (.keyError key)
  | _ => .error .attributeError

/-- dict.get(key, default) where the receiver may not be a dict, in which
case Python raises AttributeError (used for the aggregation chain). -/
def aget (v : PyVal) (key : String) (dflt : PyVal) : Except PyErr PyVal :=
  match v with
  | .dict es => .ok ((alookup es key).getD dflt)
  | _ => .error .attributeError

/-- Read a numeric field with a default (the value at type-correct call
sites is a number whenever present). -/
def getNum (v : PyVal) (key : String) (dflt : Frac) : Frac :=
  match v.get key (.num dflt) with
  | .num q => q
  | _ => dflt

/-- isinstance(x, (int, float)) for an extracted value. -/
def isNum : PyVal → Bool
  | .num _ => true
  | _ => false

/-- Extract a number, with a fallback used when the value is not numeric
(mirrors the source's isinstance robustness checks). -/
def asNum (v : PyVal) (dflt : Frac) : Frac :=
  match v with
  | .num q => q
  | _ => dflt

/-- Python truthiness of a value (None, 0, empty dict and empty string are
falsy). -/
def truthy : PyVal → Bool
  | .num q => !(Frac.beqv q (Frac.ofInt 0))
  | .str s => !(s.isEmpty)
  | .dict es => !(es.isEmpty)
  | .list vs => !(vs.isEmpty)
  | .pynone => false

end PyVal

/-
  Scenario Runner (run_simulation_scenario, src/run_full_simulation.py
  lines 176-261): the year loop.  Each iteration builds a record
  yearly_data starting from the literal dict with field 'year' = year and
  appends it to results['yearly_outputs']; any exception inside the loop
  body aborts the scenario, which returns None.  The loop body is
  abstracted as a step function from (year, carried state, previous
  outputs) to a record payload and the updated carried state, or an
  exception.
-/

namespace Runner

variable {σ α ε : Type}

/-- One scenario year loop over an explicit list of years.  On a step
exception the whole scenario returns None (failure); on success the
(year, payload) record is appended to the accumulator. -/
def runYears (stepF : Int → σ → List (Int × α) → Except ε (α × σ)) :
    List Int → σ → List (Int × α) → Option (List (Int × α))
  | [], _, acc => some acc
  | y :: ys, st, acc =>
    match stepF y st acc with
    | .ok (p, s2) => runYears stepF ys s2 (acc ++ [(y, p)])
    | .error _ => none

/-- range(start_year, end_year + 1) as a list of years. -/
def yearList (startYear endYear : Int) : List Int :=
  (List.range (endYear + 1 - startYear).toNat).map (fun i => startYear + Int.ofNat i)

/-- run_simulation_scenario year loop: iterate the years from start_year
to end_year inclusive, starting from the initial carried state and an
empty yearly_outputs list. -/
def runScen (stepF : Int → σ → List (Int × α) → Except ε (α × σ))
    (startYear endYear : Int) (s0 : σ) : Option (List (Int × α)) :=
  runYears stepF (yearList startYear endYear) s0 []

end Runner

/-
  Scenario Set Manager (the __main__ block, src/run_full_simulation.py
  lines 370-431): run every scenario in order; a scenario whose run
  returns a falsy result is excluded from all_scenario_results and a
  diagnostic naming it is printed; the comparison table is then built from
  the collected successful results, tagging each row with its scenario
  name, with a further diagnostic for a collected result whose annual
  summary is empty.
-/

namespace Batch

variable {κ ρ β : Type}

/-- The scenario loop of __main__: returns the collected results (in
scenario order) together with the diagnostics naming failed scenarios. -/
def runBatch (runF : String → κ → Option ρ) :
    List (String × κ) → List (String × ρ) × List String
  | [] => ([], [])
  | (nm, cfg) :: rest =>
    let tail := runBatch runF rest
    match runF nm cfg with
    | some r => ((nm, r) :: tail.1, tail.2)
    | none => (tail.1, nm :: tail.2)

/-- The cross-scenario comparison loop: each collected result with a
nonempty annual summary contributes its rows tagged with the scenario
name; a result with an empty summary contributes no rows and a
diagnostic naming it. -/
def comparisonData (rowsOf : ρ → List β) :
    List (String × ρ) → List (String × β) × List String
  | [] => ([], [])
  | (nm, r) :: rest =>
    let tail := comparisonData rowsOf rest
    if (rowsOf r).isEmpty then (tail.1, nm :: tail.2)
    else ((rowsOf r).map (fun row => (nm, row)) ++ tail.1, tail.2)

end Batch

/-
  Aggregator (run_simulation_scenario, src/run_full_simulation.py lines
  274-308): flatten the list of per-year records into one column per named
  indicator, one entry per year, reading each indicator through a chain
  res.get(k1, {}).get(k2, {})...get(kn, np.nan).  A missing key at any
  level yields the defensive default ({} inside the chain, np.nan at the
  leaf); a present intermediate value that is not a dict would make the
  next .get raise AttributeError in Python, which the Except layer
  records.
-/

namespace Agg

/-- One cell of the aggregated table: a number, the NaN missing sentinel,
or a present-but-non-numeric leaf value (which pandas would carry as an
object; it never occurs for well-shaped records). -/
inductive Cell where
  | val (x : Frac)
  | nan
  | other
deriving DecidableEq, Repr

/-- Evaluate one defensive .get chain (intermediate default {}, leaf
default np.nan) against a record. -/
def extractPath : PyVal → List String → Except PyErr Cell
  | v, [] => .ok (match v with | .num q => .val q | _ => .other)
  | v, [k] =>
    match v with
    | .dict es => .ok (match PyVal.alookup es k with
        | some (.num q) => .val q
        | some _ => .other
        | none => .nan)
    | _ => .error .attributeError
  | v, k :: k2 :: ks =>
    match v with
    | .dict es => extractPath ((PyVal.alookup es k).getD (.dict [])) (k2 :: ks)
    | _ => .error .attributeError

/-- Shape discipline along one path: every present intermediate value is
a dict and a present leaf value is numeric (records may have arbitrarily
missing or empty nested keys). -/
def safeAlong : PyVal → List String → Bool
  | v, [] => v.isNum
  | v, [k] =>
    match v with
    | .dict es =>
      match PyVal.alookup es k with
      | some (.num _) => true
      | some _ => false
      | none => true
    | _ => false
  | v, k :: k2 :: ks =>
    match v with
    | .dict es => safeAlong ((PyVal.alookup es k).getD (.dict [])) (k2 :: ks)
    | _ => false

/-- The named indicator paths of agg_data_dict (lines 277-287). -/
def aggPaths : List (String × List String) :=
  [("total_population", ["socioeconomic_state", "population", "total_population"]),
   ("gdp_per_capita", ["socioeconomic_state", "economy", "gdp_per_capita"]),
   ("rice_production_total", ["production_output", "total_food", "cereals", "rice"]),
   ("wheat_production_total", ["production_output", "total_food", "cereals", "wheat"]),
   ("rice_price_retail", ["market_state", "prices", "retail", "rice"]),
   ("stunting_prevalence", ["nutritional_outcomes", "nutritional_status_indicators", "stunting_prevalence"]),
   ("wasting_prevalence", ["nutritional_outcomes", "nutritional_status_indicators", "wasting_prevalence"]),
   ("avg_energy_intake", ["nutritional_outcomes", "average_nutrient_intake_per_capita_day", "energy_kcal"])]

/-- All nine chains (the year column and the eight indicators) are shape
safe for a record. -/
def pathsSafe (r : PyVal) : Bool :=
  safeAlong r ["year"] && aggPaths.all (fun p => safeAlong r p.2)

/-- The aggregated annual summary: the year column plus one column per
indicator. -/
structure AggTable where
  yearCol : List Cell
  cols : List (String × List Cell)
deriving DecidableEq, Repr

/-- Build the indicator columns, one per path. -/
def buildCols (recs : List PyVal) :
    List (String × List String) → Except PyErr (List (String × List Cell))
  | [] => .ok []
  | p :: rest =>
    match recs.mapM (fun r => extractPath r p.2) with
    | .error e => .error e
    | .ok cells =>
      match buildCols recs rest with
      | .error e => .error e
      | .ok cols => .ok ((p.1, cells) :: cols)

/-- Build agg_data_dict from the yearly records. -/
def aggregateRecords (recs : List PyVal) : Except PyErr AggTable :=
  match recs.mapM (fun r => extractPath r ["year"]) with
  | .error e => .error e
  | .ok yearCol =>
    match buildCols recs aggPaths with
    | .error e => .error e
    | .ok cols => .ok ⟨yearCol, cols⟩

/-- Column access on the aggregated table. -/
def AggTable.col (t : AggTable) (nm : String) : List Cell :=
  match t.cols.find? (fun c => c.1 = nm) with
  | some c => c.2
  | none => []

/-- A rendered key metric: a formatted number, a numerically formatted
NaN, or the explicit "N/A" marker. -/
inductive Metric where
  | fmt (x : Frac)
  | fmtNan
  | unavailable
deriving DecidableEq, Repr

/-- final_row.get(name, dflt): last cell of the named column; the default
applies only when the column itself is absent. -/
def AggTable.finalCell (t : AggTable) (nm : String) (dflt : Cell) : Cell :=
  match t.cols.find? (fun c => c.1 = nm) with
  | some c => (c.2.getLast?).getD dflt
  | none => dflt

/-- Unconditional f-string formatting of a cell value. -/
def fmtUnchecked : Cell → Metric
  | .val q => .fmt q
  | _ => .fmtNan

/-- Formatting guarded by pd.notna, with "N/A" for a missing value. -/
def fmtChecked : Cell → Metric
  | .val q => .fmt q
  | _ => .unavailable

/-- The numeric (non-missing) entries of a column. -/
def cellVals (cells : List Cell) : List Frac :=
  cells.filterMap (fun c => match c with | .val q => some q | _ => none)

def fracSum (l : List Frac) : Frac := l.foldl Frac.add (Frac.ofInt 0)

/-- pandas Series.mean over a column (skipna): NaN exactly when every
entry is missing, else the mean of the non-missing entries; the result is
then divided by 1e6 for display and guarded by pd.notna. -/
def meanScaledMetric (cells : List Cell) : Metric :=
  let vs := cellVals cells
  if vs.isEmpty then .unavailable
  else .fmt (Frac.div (Frac.div (fracSum vs) (Frac.ofInt vs.length)) (Frac.ofInt 1000000))

/-- key_metrics for a scenario (lines 297-308). -/
def keyMetrics (t : AggTable) : List (String × Metric) :=
  if t.yearCol.isEmpty then [("Error", Metric.unavailable)]
  else
    [("Final Population", fmtUnchecked (t.finalCell "total_population" (.val 0))),
     ("Final GDP per Capita", fmtUnchecked (t.finalCell "gdp_per_capita" (.val 0))),
     ("Final Stunting Rate", fmtChecked (t.finalCell "stunting_prevalence" .nan)),
     ("Final Wasting Rate", fmtChecked (t.finalCell "wasting_prevalence" .nan)),
     ("Avg Energy Intake (Final Year)", fmtChecked (t.finalCell "avg_energy_intake" .nan)),
     ("Avg Rice Production", meanScaledMetric (t.col "rice_production_total"))]

/-- The per-year rows of the aggregated table (year cell followed by the
indicator cells), used by the cross-scenario comparison. -/
def AggTable.rows (t : AggTable) : List (List Cell) :=
  (List.range t.yearCol.length).map (fun i =>
    t.yearCol.getD i .nan :: t.cols.map (fun c => c.2.getD i .nan))

end Agg

/-
  Nutritional Outcomes model (src/src/models/nutritional_outcomes.py).
  The model instance keeps its configuration sub-dicts (all empty for the
  baseline configuration, whose keys do not match the expected parameter
  group names) and the placeholder historical data loaded once by
  load_historical_data and never updated afterwards.

  A note on prev_stunting (line 118): the source reads
  historical_nutrition_data.get(indicator, dict()).get("rate", [dflt])[-1].
  After load_historical_data the indicator entries are pandas DataFrames:
  DataFrame.get("rate") returns the rate column as a Series over the
  frame RangeIndex, and Series[-1] is label-based indexing, so -1 is
  looked up as a label of RangeIndex(3) and raises KeyError(-1); the
  except branch of _estimate_nutritional_status (lines 171-186) catches
  it and returns the fixed default status dict.  Only when an indicator
  (or its rate column) is absent does the .get default list [dflt] make
  the [-1] read succeed, yielding dflt.  The embedding models both
  outcomes of the read explicitly (readPrev below).
-/

namespace Nutrition

/-- A loaded pandas DataFrame: named numeric columns over a RangeIndex
0..n-1.  Only lookup of a column by name is needed for the reads the
model performs. -/
structure Frame where
  cols : List (String × List Frac)
deriving DecidableEq, Repr

/-- historical_nutrition_data: a dict from indicator name to a loaded
DataFrame. -/
abbrev Hist := List (String × Frame)

/-- historical_nutrition_data before load_historical_data is called: the
empty dict, so every indicator read falls back to its default list. -/
def emptyHist : Hist := []

/-- load_historical_data (lines 45-61): the three placeholder DataFrames
with their year and rate columns. -/
def loadedHist : Hist :=
  [("stunting_prevalence",
     ⟨[("year", [Frac.ofInt 2020, Frac.ofInt 2021, Frac.ofInt 2022]),
       ("rate", [Frac.mkq 31 100, Frac.mkq 30 100, Frac.mkq 29 100])]⟩),
   ("wasting_prevalence",
     ⟨[("year", [Frac.ofInt 2020, Frac.ofInt 2021, Frac.ofInt 2022]),
       ("rate", [Frac.mkq 8 100, Frac.mkq 8 100, Frac.mkq 75 1000])]⟩),
   ("anemia_prevalence",
     ⟨[("year", [Frac.ofInt 2020, Frac.ofInt 2021, Frac.ofInt 2022]),
       ("rate", [Frac.mkq 40 100, Frac.mkq 39 100, Frac.mkq 38 100])]⟩)]

/-- The read historical_nutrition_data.get(ind, dict()).get("rate",
[dflt])[-1] of lines 118-120.  Indicator absent: the outer .get yields a
plain dict and the inner .get the literal default list, whose [-1] is
its last element dflt.  Indicator present: it is a loaded DataFrame, its
.get("rate") is the rate column as a pandas Series over the frame
RangeIndex, and Series[-1] looks -1 up as a label, which a RangeIndex
never contains, raising KeyError(-1); a frame without a rate column
falls back to the default list again. -/
def readPrev (hist : Hist) (ind : String) (dflt : Frac) : Except PyErr Frac :=
  match hist.find? (fun e => e.1 = ind) with
  | none => .ok dflt
  | some e =>
    match e.2.cols.find? (fun c => c.1 = "rate") with
    | none => .ok dflt
    | some _ => .error (.keyError "-1")

/-- The fixed default status dict returned by the except branch of
_estimate_nutritional_status (lines 176-186). -/
def statusDefaults : PyVal :=
  .dict [("stunting_prevalence", .num (Frac.mkq 28 100)),
         ("wasting_prevalence", .num (Frac.mkq 7 100)),
         ("underweight_prevalence", .num (Frac.mkq 15 100)),
         ("micronutrient_deficiency", .dict
            [("ida_prevalence", .num (Frac.mkq 37 100)),
             ("vad_prevalence", .num (Frac.mkq 20 100)),
             ("znd_prevalence", .num (Frac.mkq 30 100))])]

/-- Lines 128-170 of _estimate_nutritional_status: adequacy deltas and
the max(0, prev + delta) updates, once the three prev reads have
succeeded.  The adequacy comparisons use nutrient_intake.get(key, 0); a
non-numeric present value would raise TypeError in the comparison and
land in the except branch, returning the default dict.
healthAccessParams is the health_access_params config sub-dict of the
model. -/
def statusFromPrev (healthAccessParams : PyVal) (nutrientIntake : PyVal)
    (prevStunting prevWasting prevAnemia : Frac) : PyVal :=
  let ev := nutrientIntake.get "energy_kcal" (.num 0)
  let pv := nutrientIntake.get "protein_g" (.num 0)
  let iv := nutrientIntake.get "iron_mg" (.num 0)
  let cv := healthAccessParams.get "coverage" (.num (Frac.mkq 5 10))
  if ev.isNum && pv.isNum && iv.isNum && cv.isNum then
    let energyAdequate := Frac.blt (Frac.ofInt 2100) (ev.asNum 0)
    let proteinAdequate := Frac.blt (Frac.ofInt 50) (pv.asNum 0)
    let ironAdequate := Frac.blt (Frac.ofInt 10) (iv.asNum 0)
    let stuntingChange := if energyAdequate && proteinAdequate then
        Frac.mkq (-5) 1000 else Frac.mkq 2 1000
    let wastingChange := if energyAdequate then Frac.mkq (-3) 1000 else Frac.mkq 1 1000
    let anemiaChange := if ironAdequate then Frac.mkq (-1) 100 else Frac.mkq 5 1000
    let healthAccessModifier := Frac.sub (Frac.ofInt 1)
      (Frac.mul (cv.asNum (Frac.mkq 5 10)) (Frac.mkq 1 10))
    let newStunting := Frac.pymax (Frac.ofInt 0)
      (Frac.add prevStunting (Frac.mul stuntingChange healthAccessModifier))
    let newWasting := Frac.pymax (Frac.ofInt 0)
      (Frac.add prevWasting (Frac.mul wastingChange healthAccessModifier))
    let newAnemia := Frac.pymax (Frac.ofInt 0)
      (Frac.add prevAnemia (Frac.mul anemiaChange healthAccessModifier))
    .dict [("stunting_prevalence", .num newStunting),
           ("wasting_prevalence", .num newWasting),
           ("underweight_prevalence", .num (Frac.div (Frac.add newStunting newWasting) (Frac.ofInt 2))),
           ("micronutrient_deficiency", .dict
              [("ida_prevalence", .num newAnemia),
               ("vad_prevalence", .num (Frac.mkq 20 100)),
               ("znd_prevalence", .num (Frac.mkq 30 100))])]
  else statusDefaults

/-- _estimate_nutritional_status (lines 109-186): the try block first
reads the three previous rates off the static historical data (defaults
0.28, 0.07 and 0.37); a KeyError there (which the loaded pandas data
always raises) or a TypeError in the adequacy comparisons lands in the
except branch (lines 171-186), which returns the fixed default dict. -/
def estimateNutritionalStatus (healthAccessParams : PyVal) (hist : Hist)
    (nutrientIntake : PyVal) : PyVal :=
  match readPrev hist "stunting_prevalence" (Frac.mkq 28 100),
        readPrev hist "wasting_prevalence" (Frac.mkq 7 100),
        readPrev hist "anemia_prevalence" (Frac.mkq 37 100) with
  | .ok ps, .ok pw, .ok pa =>
    statusFromPrev healthAccessParams nutrientIntake ps pw pa
  | _, _, _ => statusDefaults

/-- _load_food_composition_data (lines 29-43): nutrient content per 100 g. -/
def foodComposition : List (String × List (String × Frac)) :=
  [("rice", [("energy_kcal", Frac.ofInt 360), ("protein_g", Frac.ofInt 7),
             ("iron_mg", Frac.mkq 8 10), ("zinc_mg", Frac.mkq 11 10)]),
   ("wheat", [("energy_kcal", Frac.ofInt 340), ("protein_g", Frac.ofInt 12),
              ("iron_mg", Frac.mkq 35 10), ("zinc_mg", Frac.mkq 27 10)]),
   ("pulses", [("energy_kcal", Frac.ofInt 345), ("protein_g", Frac.ofInt 22),
               ("iron_mg", Frac.ofInt 6), ("zinc_mg", Frac.ofInt 3)]),
   ("vegetables", [("energy_kcal", Frac.ofInt 30), ("protein_g", Frac.mkq 15 10),
                   ("iron_mg", Frac.ofInt 1), ("zinc_mg", Frac.mkq 3 10),
                   ("vitA_mcg", Frac.ofInt 300)]),
   ("milk", [("energy_kcal", Frac.ofInt 60), ("protein_g", Frac.mkq 33 10),
             ("calcium_mg", Frac.ofInt 120)]),
   ("eggs", [("energy_kcal", Frac.ofInt 145), ("protein_g", Frac.mkq 125 10),
             ("iron_mg", Frac.mkq 18 10), ("vitA_mcg", Frac.ofInt 140)]),
   ("fish", [("energy_kcal", Frac.ofInt 110), ("protein_g", Frac.ofInt 20),
             ("zinc_mg", Frac.mkq 6 10), ("omega3_g", Frac.ofInt 1)]),
   ("meat", [("energy_kcal", Frac.ofInt 200), ("protein_g", Frac.ofInt 25),
             ("iron_mg", Frac.mkq 25 10), ("zinc_mg", Frac.ofInt 4)])]

/-- _estimate_food_consumption (lines 64-80): each availability entry is
scaled by the configured consumption fraction (default 0.9). -/
def estimateFoodConsumption (dietaryParams : PyVal)
    (foodAvailability : List (String × Frac)) : List (String × Frac) :=
  foodAvailability.map (fun fg =>
    (fg.1, Frac.mul fg.2 (PyVal.asNum (dietaryParams.get (fg.1 ++ "_consumption_ratio") (.num (Frac.mkq 9 10))) (Frac.mkq 9 10))))

/-- Update one tracked nutrient total. -/
def bumpNutrient (totals : List (String × Frac)) (nutrient : String) (amount : Frac) :
    List (String × Frac) :=
  totals.map (fun t => if t.1 = nutrient then (t.1, Frac.add t.2 amount) else t)

/-- _calculate_nutrient_intake (lines 83-107): totals over the tracked
nutrients; foods outside the composition table are skipped; nutrients not
tracked in total_intake are ignored. -/
def calculateNutrientIntake (consumption : List (String × Frac)) :
    List (String × Frac) :=
  let init : List (String × Frac) :=
    [("energy_kcal", 0), ("protein_g", 0), ("iron_mg", 0),
     ("zinc_mg", 0), ("vitA_mcg", 0), ("calcium_mg", 0)]
  consumption.foldl (fun totals fc =>
    match foodComposition.find? (fun e => e.1 = fc.1) with
    | some comp =>
      let qtyPer100 := Frac.div (Frac.mul fc.2 (Frac.div (Frac.ofInt 1000) (Frac.ofInt 365))) (Frac.ofInt 100)
      comp.2.foldl (fun ts nv =>
        if (ts.find? (fun t => t.1 = nv.1)).isSome then
          bumpNutrient ts nv.1 (Frac.mul qtyPer100 nv.2)
        else ts) totals
    | none => totals) init

/-- The fallback availability used when food_availability is empty
(lines 215-218). -/
def defaultAvailability : List (String × Frac) :=
  [("rice", 150), ("wheat", 20), ("pulses", 8), ("vegetables", 60),
   ("milk", 30), ("eggs", 5), ("fish", 25), ("meat", 10)]

/-- simulate_nutritional_outcomes (lines 189-245) for type-correct inputs
(the outer except branch is unreachable then).  dietaryParams and
healthAccessParams are the model's config sub-dicts and hist its loaded
historical data. -/
def simulateNutritionalOutcomes (dietaryParams healthAccessParams : PyVal)
    (hist : Hist) (year : Int) (foodAvailability : List (String × Frac)) :
    PyVal :=
  let avail := if foodAvailability.isEmpty then defaultAvailability else foodAvailability
  let consumption := estimateFoodConsumption dietaryParams avail
  let intake := calculateNutrientIntake consumption
  let intakeDict : PyVal := .dict (intake.map (fun t => (t.1, PyVal.num t.2)))
  let status := estimateNutritionalStatus healthAccessParams hist intakeDict
  .dict [("year", .num (Frac.ofInt year)),
         ("estimated_per_capita_consumption_kg", .dict (consumption.map (fun t => (t.1, PyVal.num t.2)))),
         ("average_nutrient_intake_per_capita_day", intakeDict),
         ("nutritional_status_indicators", status)]

end Nutrition

/-
  Policy Interventions model (src/src/models/policy_interventions.py).
  run_full_simulation.py never calls load_policy_scenarios, so
  policy_scenarios stays empty and every scenario name falls back to the
  empty current_policies dict, making all modifiers 1.0.  The
  current_system_state argument is threaded but unused by the four
  impact placeholders.
-/

namespace Policy

/-- _simulate_agricultural_policy_impact (lines 38-48). -/
def simulateAgriculturalPolicyImpact (currentPolicies : PyVal) : PyVal :=
  let subsidyEffect := Frac.mul (currentPolicies.getNum "input_subsidy_level" 0) (Frac.mkq 5 100)
  let priceSupportEffect := Frac.mul (currentPolicies.getNum "price_support_level" 0) (Frac.mkq 2 100)
  .dict [("input_cost_modifier", .num (Frac.sub 1 subsidyEffect)),
         ("production_incentive_modifier", .num (Frac.add 1 priceSupportEffect))]

/-- _simulate_social_protection_impact (lines 50-60). -/
def simulateSocialProtectionImpact (currentPolicies : PyVal) : PyVal :=
  let coverageBoost := Frac.mul (currentPolicies.getNum "safety_net_expansion" 0) (Frac.mkq 1 10)
  let transferIncrease := currentPolicies.getNum "transfer_value_increase" 0
  .dict [("safety_net_coverage_modifier", .num (Frac.add 1 coverageBoost)),
         ("transfer_value_modifier", .num (Frac.add 1 transferIncrease))]

/-- _simulate_trade_policy_impact (lines 62-72). -/
def simulateTradePolicyImpact (currentPolicies : PyVal) : PyVal :=
  let importTariffEffect := Frac.mul (currentPolicies.getNum "import_tariff_rate" 0) (Frac.mkq 1 10)
  let exportRestrictionEffect := currentPolicies.getNum "export_restriction_level" 0
  .dict [("import_price_modifier", .num (Frac.add 1 importTariffEffect)),
         ("export_volume_modifier", .num (Frac.sub 1 exportRestrictionEffect))]

/-- _simulate_infrastructure_policy_impact (lines 74-86). -/
def simulateInfrastructurePolicyImpact (currentPolicies : PyVal) : PyVal :=
  let storageInvestment := currentPolicies.getNum "storage_investment_level" 0
  let transportInvestment := currentPolicies.getNum "transport_investment_level" 0
  let storageLossReduction := Frac.mul storageInvestment (Frac.mkq (-5) 100)
  let transportCostReduction := Frac.mul transportInvestment (Frac.mkq (-8) 100)
  .dict [("storage_loss_modifier", .num (Frac.add 1 storageLossReduction)),
         ("transport_cost_modifier", .num (Frac.add 1 transportCostReduction))]

/-- simulate_policy_impacts (lines 88-135).  The per-group policies come
from current_policies.get('agriculture', {}) etc. -/
def simulatePolicyImpacts (policyScenarios : List (String × PyVal))
    (year : Int) (scenName : String) (_currentSystemState : PyVal) : PyVal :=
  let currentPolicies := (PyVal.alookup policyScenarios scenName).getD (.dict [])
  .dict [("year", .num (Frac.ofInt year)),
         ("scenario", .str scenName),
         ("agricultural_policy_effects",
           simulateAgriculturalPolicyImpact (currentPolicies.get "agriculture" (.dict []))),
         ("social_protection_effects",
           simulateSocialProtectionImpact (currentPolicies.get "social_protection" (.dict []))),
         ("trade_policy_effects",
           simulateTradePolicyImpact (currentPolicies.get "trade" (.dict []))),
         ("infrastructure_policy_effects",
           simulateInfrastructurePolicyImpact (currentPolicies.get "infrastructure" (.dict [])))]

end Policy

/-
  Climate Resilience model (src/src/models/climate_resilience.py).  Every
  simulation helper returns a fixed placeholder structure whose leaves are
  all None, independent of the year and of the configuration; the repr
  diagnostics always succeed, so simulate_climate_resilience always
  returns the compiled results dict.
-/

namespace Climate

/-- _project_climate_conditions (lines 264-319). -/
def climateConditions : PyVal :=
  .dict [("temperature", .dict
            [("annual_mean", .pynone),
             ("seasonal", .dict [("winter", .pynone), ("pre_monsoon", .pynone),
                                 ("monsoon", .pynone), ("post_monsoon", .pynone)]),
             ("extremes", .dict [("heat_days", .pynone), ("cold_days", .pynone)])]),
         ("precipitation", .dict
            [("annual_total", .pynone),
             ("seasonal", .dict [("winter", .pynone), ("pre_monsoon", .pynone),
                                 ("monsoon", .pynone), ("post_monsoon", .pynone)]),
             ("extremes", .dict [("heavy_rainfall_days", .pynone),
                                 ("consecutive_dry_days", .pynone)])]),
         ("sea_level", .dict [("mean_rise", .pynone), ("salinity_front", .pynone)]),
         ("extreme_events", .dict [("flood_risk", .pynone), ("cyclone_risk", .pynone),
                                   ("drought_risk", .pynone)])]

/-- _assess_agricultural_impacts (lines 321-360). -/
def agriculturalImpacts : PyVal :=
  .dict [("rice_production", .dict [("boro", .pynone), ("aus", .pynone), ("aman", .pynone)]),
         ("other_crops", .dict [("wheat", .pynone), ("maize", .pynone), ("pulses", .pynone),
                                ("oilseeds", .pynone), ("vegetables", .pynone), ("fruits", .pynone)]),
         ("livestock", .dict [("dairy", .pynone), ("poultry", .pynone),
                              ("small_ruminants", .pynone)]),
         ("fisheries", .dict [("aquaculture", .pynone), ("capture_fisheries", .pynone)])]

/-- _simulate_adaptation_responses (lines 362-408). -/
def adaptationResponses : PyVal :=
  .dict [("rice_production", .dict [("variety_adoption", .pynone),
                                    ("calendar_adjustment", .pynone),
                                    ("water_management", .pynone)]),
         ("other_crops", .dict [("diversification", .pynone),
                                ("conservation_practices", .pynone),
                                ("variety_adoption", .pynone)]),
         ("livestock", .dict [("breed_selection", .pynone), ("shelter_improvement", .pynone),
                              ("feed_management", .pynone), ("disease_prevention", .pynone)]),
         ("fisheries", .dict [("species_selection", .pynone),
                              ("infrastructure_adaptation", .pynone),
                              ("water_management", .pynone)]),
         ("system_level", .dict [("climate_information_use", .pynone),
                                 ("insurance_adoption", .pynone),
                                 ("community_based_adaptation", .pynone)])]

/-- _calculate_net_impacts (lines 410-450). -/
def netImpacts : PyVal :=
  .dict [("rice_production", .dict [("yield_impact", .pynone), ("production_impact", .pynone),
                                    ("quality_impact", .pynone)]),
         ("other_crops", .dict [("yield_impact", .pynone), ("production_impact", .pynone),
                                ("quality_impact", .pynone)]),
         ("livestock", .dict [("productivity_impact", .pynone), ("health_impact", .pynone)]),
         ("fisheries", .dict [("productivity_impact", .pynone),
                              ("sustainability_impact", .pynone)]),
         ("system_level", .dict [("food_availability", .pynone), ("stability", .pynone),
                                 ("resource_status", .pynone)])]

/-- _calculate_resilience_indicators (lines 452-475). -/
def resilienceIndicators : PyVal :=
  .dict [("robustness", .pynone), ("recovery", .pynone), ("adaptation", .pynone),
         ("transformation", .pynone), ("vulnerability", .pynone)]

/-- simulate_climate_resilience (lines 184-262): compile the five
placeholder sub-results. -/
def simulateClimateResilience (_year : Int) : PyVal :=
  .dict [("climate_conditions", climateConditions),
         ("agricultural_impacts", agriculturalImpacts),
         ("adaptation_responses", adaptationResponses),
         ("net_impacts", netImpacts),
         ("resilience_indicators", resilienceIndicators)]

end Climate

/-
  Socioeconomic Dynamics model (src/src/models/socioeconomic_dynamics.py).
  The baseline configuration keys (population_growth_rate, ...) do not
  match the parameter group names the constructor expects
  (population_params, ...), so every group dict is empty and the growth
  defaults apply.  load_historical_data is never called for this model in
  run_full_simulation.py, so historical_socioeconomic_data stays empty.
-/

namespace Socio

/-- The model's configuration sub-dicts (init, lines 11-26). -/
structure Model where
  populationParams : PyVal
  economicParams : PyVal
  incomeParams : PyVal
  safetyNetParams : PyVal
  livelihoodParams : PyVal

/-- Constructor: read the parameter groups from the config dict. -/
def Model.init (config : PyVal) : Model :=
  ⟨config.get "population_params" (.dict []),
   config.get "economic_params" (.dict []),
   config.get "income_params" (.dict []),
   config.get "safety_net_params" (.dict []),
   config.get "livelihood_params" (.dict [])⟩

/-- _simulate_population_dynamics (lines 45-71). -/
def simulatePopulationDynamics (populationParams : PyVal)
    (currentPopulationData : PyVal) : PyVal :=
  let growthRate := populationParams.getNum "annual_growth_rate" (Frac.mkq 1 100)
  let lastPop :=
    match currentPopulationData with
    | .dict es =>
      match PyVal.alookup es "total_population" with
      | some (.num q) => q
      | some _ => Frac.ofInt 170000000
      | none => Frac.ofInt 170000000
    | _ => Frac.ofInt 170000000
  let newPop := Frac.mul lastPop (Frac.add 1 growthRate)
  .dict [("total_population", .num newPop),
         ("urban_population", .num (Frac.mul newPop (Frac.mkq 4 10))),
         ("rural_population", .num (Frac.mul newPop (Frac.mkq 6 10))),
         ("age_distribution", .dict [("0-14", .num (Frac.mkq 28 100)),
                                     ("15-64", .num (Frac.mkq 67 100)),
                                     ("65+", .num (Frac.mkq 5 100))])]

/-- _simulate_economic_growth (lines 73-98). -/
def simulateEconomicGrowth (economicParams : PyVal)
    (currentEconomicData : PyVal) : PyVal :=
  let gdpGrowthRate := economicParams.getNum "gdp_growth_rate" (Frac.mkq 6 100)
  let lastGdpPc :=
    match currentEconomicData with
    | .dict es =>
      match PyVal.alookup es "gdp_per_capita" with
      | some (.num q) => q
      | some _ => Frac.ofInt 2200
      | none => Frac.ofInt 2200
    | _ => Frac.ofInt 2200
  let newGdpPc := Frac.mul lastGdpPc (Frac.add 1 gdpGrowthRate)
  .dict [("gdp_per_capita", .num newGdpPc),
         ("sectoral_contribution", .dict [("agriculture", .num (Frac.mkq 12 100)),
                                          ("industry", .num (Frac.mkq 35 100)),
                                          ("services", .num (Frac.mkq 53 100))]),
         ("inflation_rate", .num (economicParams.getNum "inflation_rate" (Frac.mkq 55 1000)))]

/-- _simulate_income_distribution (lines 100-122). -/
def simulateIncomeDistribution (incomeParams : PyVal) (economicData : PyVal) : PyVal :=
  let giniCoefficient := incomeParams.getNum "gini_coefficient" (Frac.mkq 33 100)
  let gdpPerCapita :=
    match economicData with
    | .dict es =>
      match PyVal.alookup es "gdp_per_capita" with
      | some (.num q) => q
      | some _ => Frac.ofInt 2200
      | none => Frac.ofInt 2200
    | _ => Frac.ofInt 2200
  let povertyHeadcount := Frac.pymax (Frac.mkq 1 10)
    (Frac.sub (Frac.mkq 25 100) (Frac.div (Frac.sub gdpPerCapita 2200) 5000))
  .dict [("gini_coefficient", .num giniCoefficient),
         ("poverty_headcount_ratio", .num povertyHeadcount),
         ("income_quintiles", .list [.num (Frac.mkq 8 100), .num (Frac.mkq 12 100),
                                     .num (Frac.mkq 16 100), .num (Frac.mkq 22 100),
                                     .num (Frac.mkq 42 100)])]

/-- _simulate_social_safety_nets (lines 124-145). -/
def simulateSocialSafetyNets (safetyNetParams : PyVal)
    (governanceFactors : PyVal) : PyVal :=
  let baseCoverage := safetyNetParams.getNum "base_coverage" (Frac.mkq 25 100)
  let effectiveness := safetyNetParams.getNum "effectiveness" (Frac.mkq 7 10)
  let policyScaling :=
    match governanceFactors with
    | .dict es =>
      match PyVal.alookup es "safety_net_investment_scale" with
      | some (.num q) => q
      | some _ => Frac.ofInt 1
      | none => Frac.ofInt 1
    | _ => Frac.ofInt 1
  .dict [("coverage_rate", .num (Frac.mul baseCoverage policyScaling)),
         ("transfer_effectiveness", .num effectiveness),
         ("program_types", .list [.str "cash_transfer", .str "food_assistance",
                                  .str "public_works"])]

/-- The agri_labor_shift extraction of _simulate_livelihoods
(lines 150-166). -/
def extractAgriLaborShift (climateImpacts : PyVal) : Frac :=
  let raw : PyVal :=
    match climateImpacts with
    | .dict es =>
      match PyVal.alookup es "agri_labor_shift" with
      | some v => v
      | none =>
        match PyVal.alookup es "labor_impacts" with
        | some (.dict es2) => (PyVal.alookup es2 "agri_labor_shift").getD (.num 0)
        | _ =>
          match PyVal.alookup es "agricultural_impacts" with
          | some (.dict es3) => (PyVal.alookup es3 "labor_shift").getD (.num 0)
          | _ => .num 0
    | _ => .num 0
  raw.asNum 0

/-- _simulate_livelihoods (lines 147-197). -/
def simulateLivelihoods (livelihoodParams : PyVal) (climateImpacts : PyVal) : PyVal :=
  let agriLaborShift := extractAgriLaborShift climateImpacts
  let agriShare := Frac.sub (Frac.mkq 40 100) agriLaborShift
  let industryShare := Frac.mkq 25 100
  let servicesShare := Frac.add (Frac.mkq 35 100) agriLaborShift
  let totalShare := Frac.add agriShare (Frac.add industryShare servicesShare)
  let shares :=
    if Frac.beqv totalShare 0 then
      (Frac.mkq 1 3, Frac.mkq 1 3, Frac.mkq 1 3)
    else
      (Frac.div agriShare totalShare, Frac.div industryShare totalShare,
       Frac.div servicesShare totalShare)
  .dict [("livelihood_distribution", .dict
            [("agriculture", .num shares.1),
             ("industry", .num shares.2.1),
             ("services", .num shares.2.2),
             ("remittances_dependency", .num (livelihoodParams.getNum "remittance_dependency" (Frac.mkq 1 10)))]),
         ("migration_patterns", .dict
            [("rural_urban_rate", .num (Frac.mkq 15 1000)),
             ("international_rate", .num (Frac.mkq 2 1000))])]

/-- simulate_socioeconomic_factors (lines 199-252): the component results
are assembled into the new socioeconomic state (historical data is empty,
so the fallback state reads default to the empty dict). -/
def Model.simulate (m : Model) (year : Int) (currentState governanceFactors
    climateImpacts : PyVal) : PyVal :=
  let cs := match currentState with | .dict es => PyVal.dict es | _ => .dict []
  let gf := match governanceFactors with | .dict es => PyVal.dict es | _ => .dict []
  let ci := match climateImpacts with | .dict es => PyVal.dict es | _ => .dict []
  let popData := cs.get "population" (.dict [])
  let econData := cs.get "economy" (.dict [])
  let populationResults := simulatePopulationDynamics m.populationParams popData
  let economicResults := simulateEconomicGrowth m.economicParams econData
  let incomeResults := simulateIncomeDistribution m.incomeParams economicResults
  let safetyNetResults := simulateSocialSafetyNets m.safetyNetParams gf
  let livelihoodResults := simulateLivelihoods m.livelihoodParams ci
  .dict [("year", .num (Frac.ofInt year)),
         ("population", populationResults),
         ("economy", economicResults),
         ("income_distribution", incomeResults),
         ("social_safety_nets", safetyNetResults),
         ("livelihoods", livelihoodResults)]

end Socio

/-
  Agricultural Production model (src/src/models/agricultural_production.py).
  Only production_practices of the stored configuration groups is read by
  the simulation paths exercised here; the per-system parameter tables
  (rice_systems, diversified_crops, aquaculture_fisheries,
  livestock_poultry) are the fixed literals installed by the _init
  helpers, so they are embedded as constants and read through the same
  defensive .get chains as the source.
-/

namespace AgriProd

/-- _init_rice_production_systems (lines 41-76). -/
def riceSystems : PyVal :=
  .dict [("boro", .dict [("base_yield_kg_ha", .num 4500),
                         ("base_area_ha", .num 4900000),
                         ("yield_projections", .dict []),
                         ("water_requirements", .dict []),
                         ("input_sensitivity", .dict []),
                         ("climate_vulnerability", .dict [])]),
         ("aus", .dict [("base_yield_kg_ha", .num 3000),
                        ("base_area_ha", .num 1100000),
                        ("resilience_metrics", .dict []),
                        ("input_sensitivity", .dict []),
                        ("climate_vulnerability", .dict [])]),
         ("aman", .dict [("base_yield_kg_ha", .num 3800),
                         ("base_area_ha", .num 5500000),
                         ("resilience_metrics", .dict []),
                         ("input_sensitivity", .dict []),
                         ("climate_vulnerability", .dict [])]),
         ("hybrid_varieties", .dict [("adoption_rates", .dict []),
                                     ("yield_advantage", .dict []),
                                     ("input_requirements", .dict [])]),
         ("modern_varieties", .dict [("adoption_rates", .dict []),
                                     ("yield_advantage", .dict []),
                                     ("input_requirements", .dict [])])]

/-- One rice type inside simulate_rice_production (lines 211-335). -/
def riceTypeProduction (productionPractices climateFactors inputAvailability
    technologyAdoption : PyVal) (riceType : String) : Frac :=
  let sys := riceSystems.get riceType (.dict [])
  let baseYield := sys.getNum "base_yield_kg_ha" 3000
  let baseArea := sys.getNum "base_area_ha" 100000
  let tempSensitivity := PyVal.asNum
    ((sys.get "climate_vulnerability" (.dict [])).get "temp_sensitivity" (.num (Frac.mkq (-5) 100))) 0
  let tempEffect := Frac.mul (climateFactors.getNum "temp_anomaly" 0) tempSensitivity
  let rainSensitivity := PyVal.asNum
    ((sys.get "climate_vulnerability" (.dict [])).get "rain_sensitivity" (.num (Frac.mkq 1 10))) 0
  let rainEffect := Frac.mul (climateFactors.getNum "rainfall_deviation" 0) rainSensitivity
  let climateImpactFactor := Frac.pymax (Frac.mkq 1 10)
    (Frac.add 1 (Frac.add tempEffect rainEffect))
  let waterSensitivity := PyVal.asNum
    ((sys.get "input_sensitivity" (.dict [])).get "water" (.num (Frac.mkq 5 10))) 0
  let fertSensitivity := PyVal.asNum
    ((sys.get "input_sensitivity" (.dict [])).get "fertilizer" (.num (Frac.mkq 3 10))) 0
  let waterEffect := Frac.mul (inputAvailability.getNum "water_ratio" 1) waterSensitivity
  let fertEffect := Frac.mul (inputAvailability.getNum "fertilizer_ratio" 1) fertSensitivity
  let baseComponent := Frac.pymax 0 (Frac.sub 1 (Frac.add waterSensitivity fertSensitivity))
  let inputFactor := Frac.pymax (Frac.mkq 1 10)
    (Frac.add baseComponent (Frac.add waterEffect fertEffect))
  let modernAdoption := technologyAdoption.getNum "modern_adoption" 0
  let hybridAdoption := technologyAdoption.getNum "hybrid_adoption" 0
  let traditionalAdoption := Frac.pymax 0 (Frac.sub 1 (Frac.add modernAdoption hybridAdoption))
  let modernYieldAdvantage := PyVal.asNum
    ((riceSystems.get "modern_varieties" (.dict [])).get "yield_advantage" (.num (Frac.mkq 12 10)))
    (Frac.mkq 12 10)
  let hybridYieldAdvantage := PyVal.asNum
    ((riceSystems.get "hybrid_varieties" (.dict [])).get "yield_advantage" (.num (Frac.mkq 15 10)))
    (Frac.mkq 15 10)
  let techFactor := Frac.add (Frac.mul traditionalAdoption 1)
    (Frac.add (Frac.mul modernAdoption modernYieldAdvantage)
      (Frac.mul hybridAdoption hybridYieldAdvantage))
  let adjustedYield := Frac.pymax 0
    (Frac.mul baseYield (Frac.mul climateImpactFactor (Frac.mul inputFactor techFactor)))
  let typeProduction := Frac.div (Frac.mul adjustedYield baseArea) 1000
  let postHarvestLossRate := productionPractices.getNum "post_harvest_loss_rate" (Frac.mkq 1 10)
  Frac.mul typeProduction (Frac.sub 1 postHarvestLossRate)

/-- simulate_rice_production (lines 188-339): boro, aus and aman in loop
order, with the running total. -/
def simulateRiceProduction (productionPractices : PyVal) (_year : Int)
    (climateFactors inputAvailability technologyAdoption : PyVal) : PyVal :=
  let boro := riceTypeProduction productionPractices climateFactors inputAvailability technologyAdoption "boro"
  let aus := riceTypeProduction productionPractices climateFactors inputAvailability technologyAdoption "aus"
  let aman := riceTypeProduction productionPractices climateFactors inputAvailability technologyAdoption "aman"
  .dict [("boro", .num boro), ("aus", .num aus), ("aman", .num aman),
         ("total_production", .num (Frac.add (Frac.add (Frac.add 0 boro) aus) aman))]

/-- _init_diversified_crop_systems (lines 78-111): category names with
empty parameter tables. -/
def diversifiedCropNames : List String :=
  ["wheat_maize", "pulses_oilseeds", "vegetables", "fruits", "potato_tubers",
   "homestead_gardens"]

/-- One crop category inside simulate_crop_diversification
(lines 361-453); every category table is a dict of empty dicts, so every
parameter read falls back to its default. -/
def cropCategoryProduction (productionPractices climateFactors inputAvailability
    technologyAdoption marketPrices : PyVal) (category : String) : Frac :=
  let baseYield := Frac.ofInt 2000
  let baseArea := Frac.ofInt 100000
  let tempSens := Frac.mkq (-3) 100
  let rainSens := Frac.mkq 8 100
  let climateImpactFactor := Frac.pymax (Frac.mkq 1 10)
    (Frac.add (Frac.add 1 (Frac.mul (climateFactors.getNum "temp_anomaly" 0) tempSens))
      (Frac.mul (climateFactors.getNum "rainfall_deviation" 0) rainSens))
  let overallInputFraction := PyVal.asNum
    (inputAvailability.get "overall_input_ratio" (.num 1)) 1
  let inputFactor := Frac.pymax (Frac.mkq 1 10) (Frac.mul 1 overallInputFraction)
  let techAdoptionRate := technologyAdoption.getNum (category ++ "_tech_adoption") (Frac.mkq 1 10)
  let techYieldBoost := Frac.mkq 115 100
  let techFactor := Frac.pymax (Frac.mkq 1 10)
    (Frac.add 1 (Frac.mul techAdoptionRate (Frac.sub techYieldBoost 1)))
  let priceSensitivity := Frac.mkq 5 100
  let relativePriceEffect := PyVal.asNum
    (marketPrices.get ("relative_price_" ++ category) (.num 0)) 0
  let marketFactor := Frac.pymax (Frac.mkq 1 10)
    (Frac.add 1 (Frac.mul relativePriceEffect priceSensitivity))
  let adjustedYield := Frac.pymax 0
    (Frac.mul baseYield (Frac.mul climateImpactFactor
      (Frac.mul inputFactor (Frac.mul techFactor marketFactor))))
  let categoryProduction := Frac.mul adjustedYield baseArea
  let postHarvestLossRate := productionPractices.getNum (category ++ "_post_harvest_loss") (Frac.mkq 15 100)
  Frac.mul categoryProduction (Frac.sub 1 postHarvestLossRate)

/-- simulate_crop_diversification (lines 341-457). -/
def simulateCropDiversification (productionPractices : PyVal) (_year : Int)
    (climateFactors inputAvailability technologyAdoption marketPrices : PyVal) : PyVal :=
  let prods := diversifiedCropNames.map (fun c =>
    (c, cropCategoryProduction productionPractices climateFactors inputAvailability
      technologyAdoption marketPrices c))
  .dict (prods.map (fun p => (p.1, PyVal.num p.2)) ++
    [("total_production", .num (prods.foldl (fun acc p => Frac.add acc p.2) 0))])

/-- _init_aquaculture_fisheries_systems (lines 113-147): type names with
empty parameter tables. -/
def aquaFisheriesNames : List String :=
  ["pond_aquaculture", "cage_pen_culture", "shrimp_prawn", "capture_fisheries",
   "small_indigenous_fish", "integrated_rice_fish"]

/-- One type inside simulate_aquaculture_production (lines 478-608); the
parameter tables are dicts of empty dicts, so defaults apply. -/
def aquaTypeProduction (climateFactors inputAvailability technologyAdoption
    marketPrices : PyVal) (aquaType : String) : Frac :=
  let isCapture := aquaType = "capture_fisheries"
  let baseProduction := Frac.ofInt 1000
  let baseUnitMeasure := Frac.ofInt 10000
  let climateImpactFactor := Frac.pymax (Frac.mkq 1 10)
    (if aquaType = "shrimp_prawn" then
      Frac.add 1 (Frac.mul (climateFactors.getNum "salinity_change" 0) (Frac.mkq (-1) 10))
    else if isCapture then
      Frac.add 1 (Frac.mul (climateFactors.getNum "river_flow_deviation" 0) (Frac.mkq 15 100))
    else
      Frac.add (Frac.add 1 (Frac.mul (climateFactors.getNum "temp_anomaly" 0) (Frac.mkq (-4) 100)))
        (Frac.mul (climateFactors.getNum "rainfall_deviation" 0) (Frac.mkq 6 100)))
  let inputFactor := Frac.pymax (Frac.mkq 1 10)
    (if isCapture then 1
     else
      let feedSens := Frac.mkq 4 10
      let wqSens := Frac.mkq 3 10
      let feedEffect := Frac.mul (inputAvailability.getNum "feed_ratio" 1) feedSens
      let wqEffect := Frac.mul (inputAvailability.getNum "water_quality_index" 1) wqSens
      Frac.add (Frac.pymax 0 (Frac.sub 1 (Frac.add feedSens wqSens)))
        (Frac.add feedEffect wqEffect))
  let adoptionRate := technologyAdoption.getNum (aquaType ++ "_adoption") (Frac.mkq 1 10)
  let techFactor := Frac.pymax (Frac.mkq 1 10)
    (if isCapture then
      Frac.add 1 (Frac.mul adoptionRate (Frac.sub (Frac.mkq 105 100) 1))
     else
      Frac.add 1 (Frac.mul adoptionRate (Frac.sub (Frac.mkq 120 100) 1)))
  let maxSustainableCatch := Frac.mul baseProduction (Frac.mkq 11 10)
  let priceSensitivity := Frac.mkq 8 100
  let relativePriceChange := PyVal.asNum
    (marketPrices.get ("relative_price_" ++ aquaType) (.num 1)) 1
  let marketFactor := Frac.pymax (Frac.mkq 1 10)
    (Frac.add 1 (Frac.mul (Frac.sub relativePriceChange 1) priceSensitivity))
  let adjustedProductionRate := Frac.pymax 0
    (Frac.mul baseProduction (Frac.mul climateImpactFactor
      (Frac.mul inputFactor (Frac.mul techFactor marketFactor))))
  let currentMeasure := Frac.mul baseUnitMeasure marketFactor
  let rawVal := Frac.mul adjustedProductionRate currentMeasure
  let cappedVal := if isCapture then
      Frac.pymin rawVal (Frac.mul maxSustainableCatch currentMeasure)
    else rawVal
  Frac.mul cappedVal (Frac.sub 1 (Frac.mkq 12 100))

/-- simulate_aquaculture_production (lines 459-611): note the aggregate
key is total_aqua_fisheries, not total_production. -/
def simulateAquacultureProduction (_year : Int) (climateFactors inputAvailability
    technologyAdoption marketPrices : PyVal) : PyVal :=
  let prods := aquaFisheriesNames.map (fun t =>
    (t, aquaTypeProduction climateFactors inputAvailability technologyAdoption marketPrices t))
  .dict (prods.map (fun p => (p.1, PyVal.num p.2)) ++
    [("total_aqua_fisheries", .num (prods.foldl (fun acc p => Frac.add acc p.2) 0))])

/-- The shared feed factor of simulate_livestock_production
(lines 634-639); the feed_systems table holds only empty dicts, so the
trend default 0.01 applies per year since 2025. -/
def livestockFeedFactor (year : Int) (inputAvailability : PyVal) : Frac :=
  let baseFeedAvailability := Frac.ofInt 1
  let feedTrendFactor := Frac.add 1 (Frac.mul (Frac.mkq 1 100) (Frac.ofInt (year - 2025)))
  let feedQualityFactor := inputAvailability.getNum "feed_quality_ratio" 1
  Frac.mul baseFeedAvailability (Frac.mul feedTrendFactor feedQualityFactor)

/-- The shared animal health factor (lines 641-650). -/
def livestockHealthFactor (climateFactors technologyAdoption : PyVal) : Frac :=
  let baseDiseaseImpact := Frac.mkq 95 100
  let vaccinationCoverage := technologyAdoption.getNum "vaccination_coverage" (Frac.mkq 5 10)
  let serviceCoverage := technologyAdoption.getNum "vet_service_coverage" (Frac.mkq 4 10)
  let diseaseRiskModifier := climateFactors.getNum "disease_risk_mod" 1
  let healthFactor := Frac.add baseDiseaseImpact
    (Frac.mul (Frac.sub 1 baseDiseaseImpact)
      (Frac.add (Frac.mul vaccinationCoverage (Frac.mkq 6 10))
        (Frac.mul serviceCoverage (Frac.mkq 4 10))))
  Frac.pymin 1 (Frac.div healthFactor diseaseRiskModifier)

/-- The per-type total production inside simulate_livestock_production
(lines 653-729); livestock parameter tables hold only empty dicts. -/
def livestockTypeTotal (year : Int) (climateFactors inputAvailability
    technologyAdoption marketPrices : PyVal) (livestockType : String) : Frac :=
  let baseProductivity := Frac.ofInt 100
  let basePopulation := Frac.ofInt 1000000
  let heatStressIndex := climateFactors.getNum "heat_stress_index" 0
  let heatSensitivity := Frac.mkq (-5) 100
  let climateImpactFactor := Frac.add 1 (Frac.mul heatStressIndex heatSensitivity)
  let waterStressEffect := Frac.mul (climateFactors.getNum "water_stress" 0) (Frac.mkq (-1) 10)
  let inputFactor := Frac.pymax (Frac.mkq 1 10)
    (Frac.mul (livestockFeedFactor year inputAvailability) (Frac.add 1 waterStressEffect))
  let breedAdoption := technologyAdoption.getNum (livestockType ++ "_breed_adoption") (Frac.mkq 2 10)
  let breedYieldBoost := Frac.mkq 125 100
  let techFactor := Frac.pymax (Frac.mkq 1 10)
    (Frac.add 1 (Frac.mul breedAdoption (Frac.sub breedYieldBoost 1)))
  let priceSensitivity := Frac.mkq 6 100
  let relativePriceChange := PyVal.asNum
    (marketPrices.get ("relative_price_" ++ livestockType) (.num 1)) 1
  let marketFactor := Frac.pymax (Frac.mkq 1 10)
    (Frac.add 1 (Frac.mul (Frac.sub relativePriceChange 1) priceSensitivity))
  let healthFactor := livestockHealthFactor climateFactors technologyAdoption
  let adjustedProductivity := Frac.pymax 0
    (Frac.mul baseProductivity (Frac.mul climateImpactFactor
      (Frac.mul inputFactor (Frac.mul techFactor healthFactor))))
  let currentPopulation := Frac.mul basePopulation marketFactor
  Frac.mul adjustedProductivity currentPopulation

/-- simulate_livestock_production (lines 613-761): the flattened product
dict (milk, meat_from_dairy, eggs, poultry_meat, meat_small_ruminant);
there is no total_production key. -/
def simulateLivestockProduction (year : Int) (climateFactors inputAvailability
    technologyAdoption marketPrices : PyVal) : PyVal :=
  let dairyTotal := livestockTypeTotal year climateFactors inputAvailability
    technologyAdoption marketPrices "dairy"
  let poultryTotal := livestockTypeTotal year climateFactors inputAvailability
    technologyAdoption marketPrices "poultry"
  let ruminantTotal := livestockTypeTotal year climateFactors inputAvailability
    technologyAdoption marketPrices "small_ruminants"
  let dairyPopulation := Frac.mul (Frac.ofInt 1000000)
    (Frac.pymax (Frac.mkq 1 10)
      (Frac.add 1 (Frac.mul (Frac.sub (PyVal.asNum
        (marketPrices.get "relative_price_dairy" (.num 1)) 1) 1) (Frac.mkq 6 100))))
  let eggFraction := Frac.mkq 6 10
  .dict [("milk", .num dairyTotal),
         ("meat_from_dairy", .num (Frac.mul dairyPopulation 5)),
         ("eggs", .num (Frac.mul poultryTotal eggFraction)),
         ("poultry_meat", .num (Frac.mul poultryTotal (Frac.sub 1 eggFraction))),
         ("meat_small_ruminant", .num ruminantTotal)]

/-- The market price flattening of simulate_production (lines 977-1004).
Python successive dict writes are modelled by appended entries with
first-match lookup on the keys actually distinct in the source data. -/
def flattenMarketPrices (marketPrices : PyVal) : PyVal :=
  match marketPrices with
  | .dict es =>
    let hasNested := es.any (fun e => match e.2 with | .dict _ => true | _ => false)
    if hasNested then
      let flat := es.foldl (fun acc e =>
        match e.2 with
        | .dict inner => acc ++ inner.map (fun ie => (e.1 ++ "_" ++ ie.1, ie.2))
        | _ => acc ++ [e]) []
      let withRel := ["rice", "wheat", "maize", "vegetables", "fruits", "fish",
          "milk", "meat", "eggs"].foldl (fun acc crop =>
        if (PyVal.alookup acc ("producer_" ++ crop)).isSome then
          acc ++ [("relative_price_" ++ crop, PyVal.num 1)]
        else acc) flat
      .dict withRel
    else .dict es
  | _ => .dict []

/-- simulate_production (lines 958-1065). -/
def simulateProduction (productionPractices : PyVal) (year : Int)
    (climateResilienceOutput inputAvailability technologyAdoption
     marketPrices : PyVal) : PyVal :=
  let mp := match marketPrices with | .pynone => PyVal.dict [] | v => v
  let flattenedMarketPrices := flattenMarketPrices mp
  let climateFactorsForRice := climateResilienceOutput.get "agricultural_impacts" (.dict [])
  let climateFactorsForCrops := climateResilienceOutput.get "agricultural_impacts" (.dict [])
  let climateFactorsForAqua := climateResilienceOutput.get "fisheries_impacts" (.dict [])
  let climateFactorsForLivestock := climateResilienceOutput.get "livestock_impacts" (.dict [])
  let riceProduction := simulateRiceProduction productionPractices year
    climateFactorsForRice inputAvailability technologyAdoption
  let diversifiedCropsProduction := simulateCropDiversification productionPractices year
    climateFactorsForCrops inputAvailability technologyAdoption flattenedMarketPrices
  let aquacultureFisheriesProduction := simulateAquacultureProduction year
    climateFactorsForAqua inputAvailability technologyAdoption flattenedMarketPrices
  let livestockPoultryProduction := simulateLivestockProduction year
    climateFactorsForLivestock inputAvailability technologyAdoption flattenedMarketPrices
  .dict [("year", .num (Frac.ofInt year)),
         ("rice", riceProduction),
         ("diversified_crops", diversifiedCropsProduction),
         ("aquaculture_fisheries", aquacultureFisheriesProduction),
         ("livestock_poultry", livestockPoultryProduction),
         ("total_food_estimate", .num
           (Frac.add (Frac.add (Frac.add
             (riceProduction.getNum "total_production" 0)
             (diversifiedCropsProduction.getNum "total_production" 0))
             (aquacultureFisheriesProduction.getNum "total_production" 0))
             (livestockPoultryProduction.getNum "total_production" 0)))]

end AgriProd

/-
  Food Supply Chain model (src/src/models/food_supply_chain.py).  The
  simulation helpers return fixed placeholder structures with None
  leaves, independent of inputs and configuration; note that the result
  has neither a total_food nor an available_supply key.
-/

namespace Fsc

/-- The seven commodity-group keys used throughout the placeholders. -/
def commodityGroupNones : List (String × PyVal) :=
  [("cereals", .pynone), ("pulses", .pynone), ("oilseeds", .pynone),
   ("vegetables", .pynone), ("fruits", .pynone), ("livestock_products", .pynone),
   ("fish_products", .pynone)]

/-- _simulate_post_harvest (lines 241-290). -/
def postHarvestOutcomes : PyVal :=
  .dict [("losses", .dict commodityGroupNones),
         ("processed_volumes", .dict commodityGroupNones),
         ("storage_utilization", .dict [("on_farm", .pynone), ("commercial", .pynone),
                                        ("public", .pynone), ("cold_storage", .pynone)]),
         ("quality_maintenance", .dict commodityGroupNones)]

/-- _simulate_market_dynamics of the supply chain model (lines 292-359). -/
def fscMarketOutcomes : PyVal :=
  .dict [("prices", .dict [("producer", .dict commodityGroupNones),
                           ("wholesale", .dict commodityGroupNones),
                           ("retail", .dict commodityGroupNones)]),
         ("market_integration", .dict [("spatial", .pynone), ("temporal", .pynone),
                                       ("vertical", .pynone)]),
         ("trade_flows", .dict
            [("regional", .dict [("district_surplus", .pynone),
                                 ("district_deficit", .pynone),
                                 ("flow_volumes", .pynone)]),
             ("cross_border", .dict [("formal", .pynone), ("informal", .pynone)])]),
         ("market_access", .dict [("producer_access", .pynone),
                                  ("consumer_access", .pynone),
                                  ("digital_platform_utilization", .pynone)])]

/-- _simulate_actor_behaviors (lines 361-409). -/
def actorBehaviors : PyVal :=
  .dict [("farmers", .dict [("marketing_decisions", .pynone), ("storage_decisions", .pynone),
                            ("processing_decisions", .pynone), ("collective_action", .pynone)]),
         ("aggregators", .dict [("pricing_strategies", .pynone),
                                ("sourcing_strategies", .pynone),
                                ("value_addition", .pynone)]),
         ("processors", .dict [("capacity_utilization", .pynone),
                               ("sourcing_strategies", .pynone),
                               ("product_development", .pynone),
                               ("market_targeting", .pynone)]),
         ("retailers", .dict [("pricing_strategies", .pynone),
                              ("sourcing_strategies", .pynone),
                              ("product_assortment", .pynone),
                              ("service_development", .pynone)]),
         ("value_chain_governance", .dict [("coordination_mechanisms", .pynone),
                                           ("power_dynamics", .pynone),
                                           ("information_sharing", .pynone),
                                           ("risk_management", .pynone)])]

/-- _calculate_efficiency_metrics (lines 411-454). -/
def efficiencyMetrics : PyVal :=
  .dict [("loss_rates", .dict [("overall", .pynone), ("by_commodity", .pynone),
                               ("by_stage", .pynone)]),
         ("price_spreads", .dict [("farm_retail", .pynone), ("by_commodity", .pynone),
                                  ("by_channel", .pynone)]),
         ("time_efficiency", .dict [("time_to_market", .pynone), ("by_commodity", .pynone),
                                    ("by_channel", .pynone)]),
         ("resource_efficiency", .dict [("energy", .pynone), ("water", .pynone),
                                        ("labor", .pynone)]),
         ("value_addition", .dict [("overall", .pynone), ("by_commodity", .pynone),
                                   ("by_stage", .pynone)])]

/-- _calculate_food_availability (lines 456-519). -/
def foodAvailability : PyVal :=
  .dict [("national", .dict commodityGroupNones),
         ("regional", .dict
            [("urban", .dict commodityGroupNones),
             ("rural", .dict commodityGroupNones),
             ("by_division", .dict [("dhaka", .pynone), ("chittagong", .pynone),
                                    ("rajshahi", .pynone), ("khulna", .pynone),
                                    ("barisal", .pynone), ("sylhet", .pynone),
                                    ("rangpur", .pynone), ("mymensingh", .pynone)])]),
         ("seasonal", .dict [("pre_harvest", .pynone), ("post_harvest", .pynone),
                             ("lean_season", .pynone)])]

/-- simulate_supply_chains (lines 189-239). -/
def simulateSupplyChains (_year : Int) (_productionVolumes : PyVal) : PyVal :=
  .dict [("post_harvest_outcomes", postHarvestOutcomes),
         ("market_outcomes", fscMarketOutcomes),
         ("actor_behaviors", actorBehaviors),
         ("efficiency_metrics", efficiencyMetrics),
         ("food_availability", foodAvailability)]

end Fsc

/-
  Market Dynamics model (src/src/models/market_dynamics.py).  The baseline
  configuration keys (demand_elasticity, price_transmission, world_prices)
  do not match the parameter group names the constructor expects
  (demand_params, price_params, trade_params), so every group dict is
  empty.  _simulate_trade_flows references the names market_demand and
  market_supply which are not defined in its scope: whenever the import
  or export branch is reached, Python raises NameError there (after a
  ZeroDivisionError if the producer price is zero, since the propensity
  division comes first).
-/

namespace Market

/-- The model's configuration sub-dicts (init, lines 10-25). -/
structure Model where
  supplyParams : PyVal
  demandParams : PyVal
  priceParams : PyVal
  tradeParams : PyVal

def Model.init (config : PyVal) : Model :=
  ⟨config.get "supply_params" (.dict []),
   config.get "demand_params" (.dict []),
   config.get "price_params" (.dict []),
   config.get "trade_params" (.dict [])⟩

/-- self.commodities (line 24). -/
def commodities : List String :=
  ["rice", "wheat", "pulses", "vegetables", "fish", "meat", "milk", "eggs"]

/-- _simulate_supply (lines 51-76). -/
def simulateSupply (productionData policyEffects : PyVal) : PyVal :=
  let totalFood := productionData.get "total_food" (.dict [])
  let exportMod := (policyEffects.get "trade_policy_effects" (.dict [])).getNum
    "export_volume_modifier" 1
  let totalRice := (totalFood.get "cereals" (.dict [])).getNum "rice" 0
  .dict [("rice", .num (Frac.mul totalRice exportMod)),
         ("wheat", .num (Frac.mul ((totalFood.get "cereals" (.dict [])).getNum "wheat" 0) exportMod)),
         ("pulses", .num (Frac.mul (totalFood.getNum "pulses" 0) exportMod)),
         ("fish", .num (Frac.mul ((totalFood.get "fish" (.dict [])).getNum "total" 0) exportMod)),
         ("meat", .num (Frac.add ((totalFood.get "meat" (.dict [])).getNum "beef_mutton" 0)
            (Frac.mul ((totalFood.get "meat" (.dict [])).getNum "poultry" 0) exportMod))),
         ("milk", .num (Frac.mul ((totalFood.get "other_livestock" (.dict [])).getNum "milk" 0) exportMod)),
         ("eggs", .num (Frac.mul ((totalFood.get "other_livestock" (.dict [])).getNum "eggs" 0) exportMod))]

/-- base_demand_per_cap (lines 88-91). -/
def baseDemandPerCap : List (String × Frac) :=
  [("rice", 150), ("wheat", 25), ("pulses", 8), ("vegetables", 65),
   ("fish", 25), ("meat", 12), ("milk", 35), ("eggs", 6)]

/-- _simulate_demand (lines 78-107). -/
def simulateDemand (demandParams : PyVal) (socioeconomicState policyEffects : PyVal) : PyVal :=
  let population := (socioeconomicState.get "population" (.dict [])).getNum
    "total_population" 170000000
  let gdpPc := (socioeconomicState.get "economy" (.dict [])).getNum "gdp_per_capita" 2200
  let demandMod := Frac.add
    (Frac.mul ((policyEffects.get "social_protection_effects" (.dict [])).getNum
      "transfer_value_modifier" 1) (Frac.mkq 1 10))
    (Frac.mkq 9 10)
  .dict (baseDemandPerCap.map (fun bd =>
    let incomeElasticity := demandParams.getNum (bd.1 ++ "_income_elasticity") (Frac.mkq 5 10)
    let gdpBaseline := Frac.ofInt 2000
    let incomeEffect := Frac.add 1
      (Frac.mul incomeElasticity (Frac.div (Frac.sub gdpPc gdpBaseline) gdpBaseline))
    (bd.1, PyVal.num (Frac.mul (Frac.mul (Frac.mul bd.2 incomeEffect) population) demandMod))))

/-- base_prices (lines 117-120). -/
def basePrices : List (String × Frac) :=
  [("rice", 50), ("wheat", 40), ("pulses", 100), ("vegetables", 40),
   ("fish", 250), ("meat", 600), ("milk", 80), ("eggs", 120)]

/-- _simulate_price_formation (lines 109-148). -/
def simulatePriceFormation (priceParams : PyVal)
    (marketSupply marketDemand policyEffects : PyVal) : PyVal :=
  let retail := commodities.map (fun c =>
    let supply := marketSupply.getNum c (Frac.mkq 1 1000000)
    let demand := marketDemand.getNum c (Frac.mkq 1 1000000)
    let basePrice := ((basePrices.find? (fun b => b.1 = c)).map Prod.snd).getD 50
    let gapFrac := if Frac.blt 0 (Frac.add supply demand) then
        Frac.div (Frac.sub demand supply) (Frac.div (Frac.add supply demand) 2)
      else 0
    let priceElasticityFactor := priceParams.getNum (c ++ "_elasticity_factor") (Frac.mkq (-5) 10)
    let priceChangeFactor := if Frac.beqv priceElasticityFactor 0 then Frac.ofInt 1
      else Frac.add 1 (Frac.div gapFrac priceElasticityFactor)
    let tradePriceMod := (policyEffects.get "trade_policy_effects" (.dict [])).getNum
      "import_price_modifier" 1
    (c, Frac.pymax (Frac.mul (Frac.mul basePrice priceChangeFactor) tradePriceMod) 1))
  let wholesaleMargin := priceParams.getNum "wholesale_retail_margin" (Frac.mkq 85 100)
  let producerMargin := priceParams.getNum "producer_wholesale_margin" (Frac.mkq 7 10)
  let wholesale := retail.map (fun p => (p.1, Frac.mul p.2 wholesaleMargin))
  let producer := wholesale.map (fun p => (p.1, Frac.mul p.2 producerMargin))
  .dict [("retail", .dict (retail.map (fun p => (p.1, PyVal.num p.2)))),
         ("wholesale", .dict (wholesale.map (fun p => (p.1, PyVal.num p.2)))),
         ("producer", .dict (producer.map (fun p => (p.1, PyVal.num p.2))))]

/-- The commodity loop of _simulate_trade_flows (lines 158-172).  When
the import or export branch is taken the body divides by the producer
price and then reads the undefined names market_demand / market_supply,
so the loop raises at the first commodity entering a branch. -/
def tradeFlowsLoop (domesticPrices worldPrices tradePolicies : PyVal) :
    List String → Except PyErr Unit
  | [] => .ok ()
  | c :: rest =>
    let domesticPrice := (domesticPrices.get "producer" (.dict [])).getNum c 0
    let worldPrice := worldPrices.getNum c (Frac.mul domesticPrice (Frac.mkq 12 10))
    let importCost := Frac.add
      (Frac.mul (tradePolicies.getNum "import_tariff_rate" 0) worldPrice)
      (tradePolicies.getNum "import_transport_cost" 5)
    let exportCost := Frac.add
      (Frac.mul (tradePolicies.getNum "export_subsidy_rate" 0) domesticPrice)
      (tradePolicies.getNum "export_transport_cost" 6)
    if Frac.blt (Frac.add worldPrice importCost) domesticPrice then
      if Frac.beqv domesticPrice 0 then .error .zeroDivision
      else .error (.nameError "market_demand")
    else if Frac.blt domesticPrice (Frac.sub worldPrice exportCost) then
      if Frac.beqv domesticPrice 0 then .error .zeroDivision
      else .error (.nameError "market_supply")
    else tradeFlowsLoop domesticPrices worldPrices tradePolicies rest

/-- _simulate_trade_flows (lines 150-174): the flow dicts stay empty
whenever no branch is taken. -/
def simulateTradeFlows (domesticPrices worldPrices tradePolicies : PyVal) :
    Except PyErr PyVal := do
  let _ ← tradeFlowsLoop domesticPrices worldPrices tradePolicies commodities
  pure (.dict [("imports", .dict []), ("exports", .dict [])])

/-- simulate_market_dynamics (lines 177-216). -/
def Model.simulate (m : Model) (year : Int)
    (productionData socioeconomicState policyEffects : PyVal) :
    Except PyErr PyVal := do
  let marketSupply := simulateSupply productionData policyEffects
  let marketDemand := simulateDemand m.demandParams socioeconomicState policyEffects
  let marketPrices := simulatePriceFormation m.priceParams marketSupply marketDemand policyEffects
  let worldPrices := m.tradeParams.get "world_prices" (.dict [])
  let tradePolicies := policyEffects.get "trade_policy_effects" (.dict [])
  let tradeFlows ← simulateTradeFlows marketPrices worldPrices tradePolicies
  pure (.dict [("year", .num (Frac.ofInt year)),
               ("market_supply", marketSupply),
               ("market_demand", marketDemand),
               ("prices", marketPrices),
               ("trade_flows", tradeFlows)])

end Market

/-- Truncating conversion used to read integer-valued years out of a
numeric config entry. -/
def Frac.asInt (f : Frac) : Int := f.n / f.d

namespace Nutrition

/-- The model's configuration sub-dicts plus the historical data slot
(init, lines 11-27, and load_historical_data). -/
structure Model where
  dietaryParams : PyVal
  statusParams : PyVal
  micronutrientParams : PyVal
  healthAccessParams : PyVal
  hist : Hist

def Model.init (config : PyVal) (hist : Hist) : Model :=
  ⟨config.get "dietary_params" (.dict []),
   config.get "status_params" (.dict []),
   config.get "micronutrient_params" (.dict []),
   config.get "health_access_params" (.dict []),
   hist⟩

/-- simulate_nutritional_outcomes with the source's full signature;
market_prices, the socioeconomic state (beyond the ignored income
levels) and the health state do not influence the computation. -/
def Model.simulate (m : Model) (year : Int)
    (foodAvailability : List (String × Frac))
    (_marketPrices _socioeconomicState _healthState : PyVal) : PyVal :=
  simulateNutritionalOutcomes m.dietaryParams m.healthAccessParams m.hist year
    foodAvailability

end Nutrition

/-
  The Year-Step Orchestrator: the loop body of run_simulation_scenario
  (src/run_full_simulation.py lines 176-256), sequencing the seven models
  and threading the carried socioeconomic state.  The previous year's
  record is read through direct dict indexing (guarded by the emptiness
  check on yearly_outputs), so a missing key there would raise.
-/

namespace Pipeline

/-- The model instances of one scenario (lines 131-137); only the
configuration attributes consumed by the exercised paths are kept.
load_historical_data is called for the nutrition and market models only
(lines 143-146), so the nutrition model carries the loaded placeholder
history. -/
structure Models where
  agriProductionPractices : PyVal
  socio : Socio.Model
  policyScenarios : List (String × PyVal)
  nutrition : Nutrition.Model
  market : Market.Model

/-- Build the models from the scenario's parameters dict. -/
def initModels (parameters : PyVal) : Models :=
  ⟨(parameters.get "agricultural_production" (.dict [])).get "production_practices" (.dict []),
   Socio.Model.init (parameters.get "socioeconomic_dynamics" (.dict [])),
   [],
   Nutrition.Model.init (parameters.get "nutritional_outcomes" (.dict [])) Nutrition.loadedHist,
   Market.Model.init (parameters.get "market_dynamics" (.dict []))⟩

/-- current_health_state (line 171), never mutated. -/
def currentHealthState : PyVal :=
  .dict [("sanitation_coverage", .num (Frac.mkq 8 10)),
         ("disease_burden_index", .num 1)]

/-- The initial carried socioeconomic state (lines 165-169). -/
def initialSocioState (initialState : PyVal) : PyVal :=
  .dict [("population", .dict [("total_population", .num (initialState.getNum "population" 170000000))]),
         ("economy", .dict [("gdp_per_capita", .num (initialState.getNum "gdp_per_capita" 2600))]),
         ("income_distribution", .dict [("gini_coefficient", .num (Frac.mkq 32 100))])]

/-- One simulated year (the try body, lines 179-256): returns the
yearly_data record and the updated carried socioeconomic state, or the
exception that aborts the scenario. -/
def yearStep (m : Models) (scenName : String) (year : Int) (socioState : PyVal)
    (prevOutputs : List (Int × PyVal)) : Except PyErr (PyVal × PyVal) := do
  let prevProduction ← match prevOutputs.getLast? with
    | some pr => pr.2.item "production_output"
    | none => pure (PyVal.dict [])
  let prevMarketState ← match prevOutputs.getLast? with
    | some pr => pr.2.item "market_state"
    | none => pure (PyVal.dict [])
  let prevSupplyChain ← match prevOutputs.getLast? with
    | some pr => pr.2.item "supply_chain_output"
    | none => pure (PyVal.dict [])
  let systemStateForPolicy := PyVal.dict
    [("socioeconomic", socioState),
     ("agricultural_production", prevProduction),
     ("market_dynamics", prevMarketState),
     ("food_supply_chain", prevSupplyChain)]
  let policyImpactsForYear := Policy.simulatePolicyImpacts m.policyScenarios year
    scenName systemStateForPolicy
  let climateResilienceOutput := Climate.simulateClimateResilience year
  let socioState2 := m.socio.simulate year socioState policyImpactsForYear
    climateResilienceOutput
  let inputAvailability := PyVal.dict
    [("fertilizer_access", .num (Frac.mkq 9 10)),
     ("irrigation_coverage", .num (Frac.mkq 6 10))]
  let technologyAdoption := PyVal.dict [("improved_seeds_rate", .num (Frac.mkq 7 10))]
  let prevMarketPrices ← match prevOutputs.getLast? with
    | some pr => do
      let ms ← pr.2.item "market_state"
      let prices ← ms.item "prices"
      prices.item "producer"
    | none => pure (PyVal.dict [])
  let productionOutput := AgriProd.simulateProduction m.agriProductionPractices year
    climateResilienceOutput inputAvailability technologyAdoption prevMarketPrices
  let supplyChainOutput := Fsc.simulateSupplyChains year productionOutput
  let policyEffectsForMarket := PyVal.dict
    [("trade_policy_effects", policyImpactsForYear.get "trade_policy_effects" (.dict [])),
     ("social_protection_effects", policyImpactsForYear.get "social_protection_effects" (.dict []))]
  let marketState ← m.market.simulate year supplyChainOutput socioState2
    policyEffectsForMarket
  let foodAvailabilityNutrition := marketState.get "market_supply" (.dict [])
  let popDict ← socioState2.item "population"
  let popEntry ← popDict.item "total_population"
  let population ← match popEntry with
    | .num p => pure p
    | _ => throw PyErr.typeError
  let fanEntries := match foodAvailabilityNutrition with | .dict es => es | _ => []
  let foodAvailabilityPc ← fanEntries.mapM (fun e =>
    match e.2 with
    | PyVal.num v => pure (e.1,
        if Frac.blt 0 population then Frac.mul (Frac.div v population) 1000
        else (0 : Frac))
    | _ => throw PyErr.typeError)
  let nutritionalOutcomes := m.nutrition.simulate year foodAvailabilityPc
    ((marketState.get "prices" (.dict [])).get "retail" (.dict []))
    socioState2 currentHealthState
  let yearlyData := PyVal.dict
    [("year", .num (Frac.ofInt year)),
     ("policy_impacts", policyImpactsForYear),
     ("climate_resilience_output", climateResilienceOutput),
     ("socioeconomic_state", socioState2),
     ("production_output", productionOutput),
     ("supply_chain_output", supplyChainOutput),
     ("market_state", marketState),
     ("nutritional_outcomes", nutritionalOutcomes)]
  pure (yearlyData, socioState2)

/-- run_simulation_scenario (lines 112-261) up to the year loop: read
the configuration (direct indexing: a malformed config fails the
scenario), build the models and drive the year loop. -/
def runSimulationScenario (scenName : String) (config : PyVal) :
    Option (List (Int × PyVal)) :=
  match config.item "start_year", config.item "end_year",
        config.item "parameters", config.item "initial_state" with
  | .ok (.num sy), .ok (.num ey), .ok parameters, .ok initialState =>
    Runner.runScen (yearStep (initModels parameters) scenName)
      sy.asInt ey.asInt (initialSocioState initialState)
  | _, _, _, _ => none

/-- The aggregated scenario result as collected by __main__: failed or
empty runs yield nothing. -/
def scenarioAggregate (scenName : String) (config : PyVal) :
    Option Agg.AggTable :=
  match runSimulationScenario scenName config with
  | some outs =>
    if outs.isEmpty then none
    else
      match Agg.aggregateRecords (outs.map Prod.snd) with
      | .ok t => some t
      | .error _ => none
  | none => none

/-- BASE_CONFIG parameters (src/run_full_simulation.py lines 57-90). -/
def baseParameters : PyVal :=
  .dict [("agricultural_production", .dict
            [("yield_trends", .dict [("rice", .num (Frac.mkq 1 100)),
                                     ("wheat", .num (Frac.mkq 15 1000)),
                                     ("maize", .num (Frac.mkq 2 100))]),
             ("climate_yield_sensitivity", .dict [("rice", .num (Frac.mkq (-5) 100)),
                                                  ("wheat", .num (Frac.mkq (-7) 100))])]),
         ("climate_resilience", .dict
            [("temp_anomaly_trend", .num (Frac.mkq 3 100)),
             ("precip_change_trend", .num (Frac.mkq (-5) 1000)),
             ("adaptation_effectiveness", .num (Frac.mkq 3 10))]),
         ("food_supply_chain", .dict
            [("storage_loss_rate", .dict [("cereals", .num (Frac.mkq 6 100)),
                                          ("perishables", .num (Frac.mkq 15 100))]),
             ("transport_efficiency", .num (Frac.mkq 95 100))]),
         ("socioeconomic_dynamics", .dict
            [("population_growth_rate", .num (Frac.mkq 1 100)),
             ("gdp_growth_rate", .num (Frac.mkq 65 1000)),
             ("income_elasticity_diet", .num (Frac.mkq 4 10))]),
         ("policy_interventions", .dict
            [("policy_scenario_active", .str "baseline"),
             ("fertilizer_subsidy_level", .num (Frac.mkq 1 10)),
             ("safety_net_coverage", .num (Frac.mkq 2 10))]),
         ("nutritional_outcomes", .dict
            [("health_access_improvement_rate", .num (Frac.mkq 1 100)),
             ("base_nutrient_req", .dict [("energy_kcal", .num 2100),
                                          ("protein_g", .num 50)])]),
         ("market_dynamics", .dict
            [("demand_elasticity", .dict [("price", .num (Frac.mkq (-3) 10)),
                                          ("income", .num (Frac.mkq 4 10))]),
             ("price_transmission", .dict [("producer_retail", .num (Frac.mkq 6 10))]),
             ("world_prices", .dict [("rice", .num 450), ("wheat", .num 350)])])]

/-- BASE_CONFIG (lines 46-91) with a configurable simulation window. -/
def baseConfig (startYear endYear : Int) : PyVal :=
  .dict [("simulation_name", .str "BD_FoodSecurity_Scenario_Baseline"),
         ("start_year", .num (Frac.ofInt startYear)),
         ("end_year", .num (Frac.ofInt endYear)),
         ("initial_state", .dict
            [("population", .num 170000000),
             ("gdp_per_capita", .num 2600),
             ("stunting_rate", .num (Frac.mkq 28 100)),
             ("wasting_rate", .num (Frac.mkq 8 100)),
             ("rice_production", .num 38000000)]),
         ("parameters", baseParameters)]

/-- The growth rate the Socioeconomic model actually applies under the
baseline configuration: its population_params group (empty, since the
config uses the key population_growth_rate at the wrong level) read at
annual_growth_rate with default 0.01. -/
def baselineGrowthRate : Frac :=
  (Socio.Model.init (baseParameters.get "socioeconomic_dynamics" (.dict []))).populationParams.getNum
    "annual_growth_rate" (Frac.mkq 1 100)

end Pipeline


/-- The stunting_prevalence produced for a given year of the baseline
2025-2027 run. -/
def runStunting (yr : Int) : Option Frac :=
  match Pipeline.runSimulationScenario "baseline" (Pipeline.baseConfig 2025 2027) with
  | some outs =>
    match outs.find? (fun r => r.1 = yr) with
    | some r =>
      match Agg.extractPath r.2 ["nutritional_outcomes",
        "nutritional_status_indicators", "stunting_prevalence"] with
      | .ok (.val q) => some q
      | _ => none
    | none => none
  | none => none

/-
  Scenario Set Manager configuration build (src/run_full_simulation.py
  lines 93-110) as a heap model.  Python dicts are mutable objects, so
  SCENARIOS is modelled as a store of objects addressed by naturals:
  BASE_CONFIG is allocated once, each non-baseline scenario is a
  deepcopy allocating fresh addresses recursively, and the targeted
  overrides are in-place writes through nested-key paths.  materialize
  reads a configuration back as a value tree.
-/

namespace Heap

/-- A heap object: an immutable leaf or a dict whose entries hold
addresses. -/
inductive HObj where
  | num (x : Frac)
  | str (s : String)
  | dicto (es : List (String × Nat))
deriving DecidableEq, Repr

/-- The object store; an address is an index. -/
abbrev Store := List HObj

/-- Allocate a fresh object at the next address. -/
def alloc (st : Store) (o : HObj) : Store × Nat := (st ++ [o], st.length)

/-- Allocate a value tree on the heap (dict entries left to right, then
the dict object itself; fuel bounds the tree depth and the configs
contain no Python lists or None). -/
def allocVal : Nat → Store → PyVal → Store × Nat
  | 0, st, _ => (st, 0)
  | fuel + 1, st, v =>
    match v with
    | .num q => alloc st (.num q)
    | .str s => alloc st (.str s)
    | .dict es =>
      let r := es.foldl (fun acc e =>
        let r1 := allocVal fuel acc.1 e.2
        (r1.1, acc.2 ++ [(e.1, r1.2)])) (st, ([] : List (String × Nat)))
      alloc r.1 (.dicto r.2)
    | .list _ => alloc st (.str "")
    | .pynone => alloc st (.str "")

/-- copy.deepcopy: recursively allocate a fresh copy of the object
graph reachable from an address (fuel bounds the depth; the
configuration trees are shallow). -/
def deepcopy : Nat → Store → Nat → Store × Nat
  | 0, st, a => (st, a)
  | fuel + 1, st, a =>
    match st.get? a with
    | some (.dicto es) =>
      let r := es.foldl (fun acc e =>
        let r1 := deepcopy fuel acc.1 e.2
        (r1.1, acc.2 ++ [(e.1, r1.2)])) (st, ([] : List (String × Nat)))
      alloc r.1 (.dicto r.2)
    | some o => alloc st o
    | none => (st, a)

/-- Nested assignment d[k1][k2]...[kn] = leaf: navigate the dicts and
mutate the final dict object in place (replacing the slot when the key
exists, appending it otherwise, as Python item assignment does). -/
def setPath (st : Store) (a : Nat) : List String → HObj → Store
  | [], _ => st
  | [k], leaf =>
    match st.get? a with
    | some (.dicto es) =>
      let r := alloc st leaf
      let es2 := if es.any (fun e => e.1 = k) then
          es.map (fun e => if e.1 = k then (k, r.2) else e)
        else es ++ [(k, r.2)]
      r.1.set a (.dicto es2)
    | _ => st
  | k :: k2 :: ks, leaf =>
    match st.get? a with
    | some (.dicto es) =>
      match es.find? (fun e => e.1 = k) with
      | some e => setPath st e.2 (k2 :: ks) leaf
      | none => st
    | _ => st

/-- Read a configuration back from the heap as a value tree. -/
def materialize : Nat → Store → Nat → PyVal
  | 0, _, _ => .pynone
  | fuel + 1, st, a =>
    match st.get? a with
    | some (.num q) => .num q
    | some (.str s) => .str s
    | some (.dicto es) => .dict (es.map (fun e => (e.1, materialize fuel st e.2)))
    | none => .pynone

/-- The addresses readable from a root within the given depth. -/
def reachList : Nat → Store → Nat → List Nat
  | 0, _, a => [a]
  | fuel + 1, st, a =>
    a :: (match st.get? a with
      | some (.dicto es) => es.flatMap (fun e => reachList fuel st e.2)
      | _ => [])

/-- The SCENARIOS construction (lines 93-110): allocate BASE_CONFIG,
deep-copy it for the three non-baseline scenarios, then apply the
targeted overrides in place. -/
def scenariosBuild : Store × List (String × Nat) :=
  let r1 := allocVal 10 [] (Pipeline.baseConfig 2025 2035)
  let r2 := deepcopy 10 r1.1 r1.2
  let r3 := deepcopy 10 r2.1 r1.2
  let r4 := deepcopy 10 r3.1 r1.2
  let s5 := setPath r4.1 r2.2 ["simulation_name"]
    (.str "BD_FoodSecurity_Scenario_HighClimateImpact")
  let s6 := setPath s5 r2.2 ["parameters", "climate_resilience", "temp_anomaly_trend"]
    (.num (Frac.mkq 5 100))
  let s7 := setPath s6 r2.2 ["parameters", "climate_resilience", "precip_change_trend"]
    (.num (Frac.mkq (-1) 100))
  let s8 := setPath s7 r3.2 ["simulation_name"]
    (.str "BD_FoodSecurity_Scenario_EnhancedAdaptation")
  let s9 := setPath s8 r3.2 ["parameters", "climate_resilience", "adaptation_effectiveness"]
    (.num (Frac.mkq 6 10))
  let s10 := setPath s9 r4.2 ["simulation_name"]
    (.str "BD_FoodSecurity_Scenario_PolicyChangeSafetyNet")
  let s11 := setPath s10 r4.2 ["parameters", "policy_interventions", "policy_scenario_active"]
    (.str "enhanced_safety_nets")
  let s12 := setPath s11 r4.2 ["parameters", "policy_interventions", "safety_net_coverage"]
    (.num (Frac.mkq 4 10))
  (s12, [("baseline", r1.2), ("high_climate_impact", r2.2),
         ("enhanced_adaptation", r3.2), ("policy_change_safety_net", r4.2)])

/-- The finished SCENARIOS store. -/
def scenariosHeap : Store := scenariosBuild.1

/-- The scenario name to configuration-address map. -/
def scenariosAddrs : List (String × Nat) := scenariosBuild.2

end Heap

/-
  Supporting lemmas proved about the embedded definitions.
-/

namespace Frac

theorem wf_ofInt (z : Int) : (ofInt z).Wf := by
  simp [ofInt, Wf]

theorem wf_mkq (n d : Int) (h : 0 < d) : (mkq n d).Wf := h

theorem wf_add {a b : Frac} (ha : a.Wf) (hb : b.Wf) : (add a b).Wf :=
  mul_pos ha hb

theorem wf_sub {a b : Frac} (ha : a.Wf) (hb : b.Wf) : (sub a b).Wf :=
  mul_pos ha hb

theorem wf_mul {a b : Frac} (ha : a.Wf) (hb : b.Wf) : (mul a b).Wf :=
  mul_pos ha hb

theorem wf_neg {a : Frac} (ha : a.Wf) : (neg a).Wf := ha

theorem wf_div {a b : Frac} (ha : a.Wf) (hb : b.Wf) : (div a b).Wf := by
  unfold div
  by_cases h1 : 0 < b.n
  · simpa [h1, Wf] using mul_pos ha h1
  · by_cases h2 : b.n < 0
    · simp only [h1, if_false, h2, if_true]
      have : a.d * b.n < 0 := mul_neg_of_pos_of_neg ha h2
      simpa [Wf] using this
    · simp [h1, h2, Wf]

theorem wf_pymax {a b : Frac} (ha : a.Wf) (hb : b.Wf) : (pymax a b).Wf := by
  unfold pymax
  by_cases h : blt a b = true <;> simp [h, ha, hb]

theorem wf_pymin {a b : Frac} (ha : a.Wf) (hb : b.Wf) : (pymin a b).Wf := by
  unfold pymin
  by_cases h : blt b a = true <;> simp [h, ha, hb]

theorem toRat_ofInt (z : Int) : (ofInt z).toRat = (z : ℚ) := by
  simp [ofInt, toRat]

theorem toRat_add {a b : Frac} (ha : a.Wf) (hb : b.Wf) :
    (add a b).toRat = a.toRat + b.toRat := by
  have ha' : (a.d : ℚ) ≠ 0 := Int.cast_ne_zero.mpr (ne_of_gt ha)
  have hb' : (b.d : ℚ) ≠ 0 := Int.cast_ne_zero.mpr (ne_of_gt hb)
  unfold add toRat
  push_cast
  field_simp
  try ring

theorem toRat_sub {a b : Frac} (ha : a.Wf) (hb : b.Wf) :
    (sub a b).toRat = a.toRat - b.toRat := by
  have ha' : (a.d : ℚ) ≠ 0 := Int.cast_ne_zero.mpr (ne_of_gt ha)
  have hb' : (b.d : ℚ) ≠ 0 := Int.cast_ne_zero.mpr (ne_of_gt hb)
  unfold sub toRat
  push_cast
  field_simp
  try ring

theorem toRat_mul (a b : Frac) : (mul a b).toRat = a.toRat * b.toRat := by
  unfold mul toRat
  push_cast
  rw [div_mul_div_comm]

theorem toRat_neg (a : Frac) : (neg a).toRat = -a.toRat := by
  unfold neg toRat
  push_cast
  ring

theorem ble_iff {a b : Frac} (ha : a.Wf) (hb : b.Wf) :
    ble a b = true ↔ a.toRat ≤ b.toRat := by
  have ha' : (0 : ℚ) < (a.d : ℚ) := by exact_mod_cast ha
  have hb' : (0 : ℚ) < (b.d : ℚ) := by exact_mod_cast hb
  unfold ble toRat
  rw [decide_eq_true_iff, div_le_div_iff₀ ha' hb']
  constructor
  · intro h
    exact_mod_cast h
  · intro h
    exact_mod_cast h

theorem blt_iff {a b : Frac} (ha : a.Wf) (hb : b.Wf) :
    blt a b = true ↔ a.toRat < b.toRat := by
  have ha' : (0 : ℚ) < (a.d : ℚ) := by exact_mod_cast ha
  have hb' : (0 : ℚ) < (b.d : ℚ) := by exact_mod_cast hb
  unfold blt toRat
  rw [decide_eq_true_iff, div_lt_div_iff₀ ha' hb']
  constructor
  · intro h
    exact_mod_cast h
  · intro h
    exact_mod_cast h

theorem beqv_iff {a b : Frac} (ha : a.Wf) (hb : b.Wf) :
    beqv a b = true ↔ a.toRat = b.toRat := by
  have ha' : (a.d : ℚ) ≠ 0 := Int.cast_ne_zero.mpr (ne_of_gt ha)
  have hb' : (b.d : ℚ) ≠ 0 := Int.cast_ne_zero.mpr (ne_of_gt hb)
  unfold beqv toRat
  rw [decide_eq_true_iff, div_eq_div_iff ha' hb']
  constructor
  · intro h
    exact_mod_cast h
  · intro h
    exact_mod_cast h

/-- Python max(0, x) is nonnegative as a rational, for well-formed x. -/
theorem pymax_zero_nonneg {x : Frac} (hx : x.Wf) :
    0 ≤ (pymax (ofInt 0) x).toRat := by
  unfold pymax
  by_cases h : blt (ofInt 0) x = true
  · have := (blt_iff (wf_ofInt 0) hx).mp h
    rw [toRat_ofInt] at this
    simp only [h, if_true]
    exact le_of_lt (by exact_mod_cast this)
  · simp [h, toRat_ofInt]

end Frac


namespace Runner

variable {σ α ε : Type}

theorem runYears_map_fst (stepF : Int → σ → List (Int × α) → Except ε (α × σ)) :
    ∀ (ys : List Int) (st : σ) (acc out : List (Int × α)),
      runYears stepF ys st acc = some out →
      out.map Prod.fst = acc.map Prod.fst ++ ys := by
  intro ys
  induction ys with
  | nil =>
    intro st acc out h
    simp only [runYears] at h
    cases h
    simp
  | cons y ys ih =>
    intro st acc out h
    simp only [runYears] at h
    cases hst : stepF y st acc with
    | ok ps =>
      rw [hst] at h
      have := ih ps.2 (acc ++ [(y, ps.1)]) out (by
        cases ps
        simpa using h)
      simpa using this
    | error e =>
      rw [hst] at h
      cases h

theorem yearList_length (startYear endYear : Int) (h : startYear ≤ endYear) :
    ((yearList startYear endYear).length : Int) = endYear - startYear + 1 := by
  have h2 : (yearList startYear endYear).length = (endYear + 1 - startYear).toNat := by
    rw [yearList, List.length_map, List.length_range]
  rw [h2]
  omega

theorem yearList_get (startYear endYear : Int) (i : Nat)
    (h : i < (yearList startYear endYear).length) :
    (yearList startYear endYear).get ⟨i, h⟩ = startYear + Int.ofNat i := by
  simp only [yearList, List.get_eq_getElem, List.getElem_map, List.getElem_range]

end Runner


namespace Batch

variable {κ ρ β : Type}

theorem runBatch_append (runF : String → κ → Option ρ)
    (xs ys : List (String × κ)) :
    runBatch runF (xs ++ ys) =
      ((runBatch runF xs).1 ++ (runBatch runF ys).1,
       (runBatch runF xs).2 ++ (runBatch runF ys).2) := by
  induction xs with
  | nil => simp [runBatch]
  | cons hd tl ih =>
    cases hd with
    | mk nm cfg =>
      cases hr : runF nm cfg <;> simp [runBatch, hr, ih]

/-- Every collected batch result comes from a scenario of the input list
whose run succeeded with exactly that result. -/
theorem runBatch_mem (runF : String → κ → Option ρ)
    (scens : List (String × κ)) :
    ∀ p ∈ (runBatch runF scens).1, ∃ cfg, (p.1, cfg) ∈ scens ∧
      runF p.1 cfg = some p.2 := by
  induction scens with
  | nil => simp [runBatch]
  | cons hd tl ih =>
    cases hd with
    | mk nm cfg =>
      intro p hp
      simp only [runBatch] at hp
      cases hrun : runF nm cfg with
      | some r =>
        rw [hrun] at hp
        rcases List.mem_cons.mp hp with h | h
        · subst h
          exact ⟨cfg, by simp, hrun⟩
        · rcases ih p h with ⟨c, hc1, hc2⟩
          exact ⟨c, by simp [hc1], hc2⟩
      | none =>
        rw [hrun] at hp
        rcases ih p hp with ⟨c, hc1, hc2⟩
        exact ⟨c, by simp [hc1], hc2⟩

theorem runBatch_diag (runF : String → κ → Option ρ) (nm : String) (cfg : κ) :
    ∀ scens : List (String × κ), (nm, cfg) ∈ scens → runF nm cfg = none →
      nm ∈ (runBatch runF scens).2 := by
  intro scens
  induction scens with
  | nil => intro h; cases h
  | cons hd tl ih =>
    cases hd with
    | mk nm2 cfg2 =>
      intro hmem hnone
      rcases List.mem_cons.mp hmem with h | h
      · injection h with h1 h2
        subst h1
        subst h2
        simp [runBatch, hnone]
      · have htail := ih h hnone
        cases hr : runF nm2 cfg2 with
        | some r => simpa [runBatch, hr] using htail
        | none =>
          simp only [runBatch, hr]
          exact List.mem_cons_of_mem _ htail

/-- A scenario all of whose configured runs fail is not among the
collected results and is named in the diagnostics. -/
theorem runBatch_failed (runF : String → κ → Option ρ)
    (scens : List (String × κ)) (nm : String)
    (hfail : ∀ cfg, (nm, cfg) ∈ scens → runF nm cfg = none)
    (hmem : ∃ cfg, (nm, cfg) ∈ scens) :
    (∀ p ∈ (runBatch runF scens).1, p.1 ≠ nm) ∧ nm ∈ (runBatch runF scens).2 := by
  constructor
  · intro p hp heq
    rcases runBatch_mem runF scens p hp with ⟨c, hc1, hc2⟩
    rw [heq] at hc1 hc2
    rw [hfail c hc1] at hc2
    cases hc2
  · rcases hmem with ⟨cfg, hcfg⟩
    exact runBatch_diag runF nm cfg scens hcfg (hfail cfg hcfg)

/-- Every comparison-table row is labelled with the name of a collected
result whose rows include it. -/
theorem comparisonData_mem (rowsOf : ρ → List β)
    (results : List (String × ρ)) :
    ∀ p ∈ (comparisonData rowsOf results).1,
      ∃ r, (p.1, r) ∈ results ∧ p.2 ∈ rowsOf r := by
  induction results with
  | nil => simp [comparisonData]
  | cons hd tl ih =>
    cases hd with
    | mk nm r =>
      intro p hp
      simp only [comparisonData] at hp
      by_cases hemp : (rowsOf r).isEmpty
      · rw [if_pos hemp] at hp
        rcases ih p hp with ⟨r2, h1, h2⟩
        exact ⟨r2, by simp [h1], h2⟩
      · rw [if_neg hemp] at hp
        rcases List.mem_append.mp hp with h | h
        · rcases List.mem_map.mp h with ⟨row, hrow, hpe⟩
          refine ⟨r, by simp [← hpe], ?_⟩
          rw [← hpe]
          exact hrow
        · rcases ih p h with ⟨r2, h1, h2⟩
          exact ⟨r2, by simp [h1], h2⟩

end Batch


namespace Agg

theorem extractPath_safe :
    ∀ (path : List String) (v : PyVal), safeAlong v path = true →
      ∃ cell, extractPath v path = .ok cell ∧ cell ≠ Cell.other := by
  intro path
  induction path with
  | nil =>
    intro v h
    cases v with
    | num q => exact ⟨.val q, rfl, by simp⟩
    | str s => simp [safeAlong, PyVal.isNum] at h
    | dict es => simp [safeAlong, PyVal.isNum] at h
    | list l => simp [safeAlong, PyVal.isNum] at h
    | pynone => simp [safeAlong, PyVal.isNum] at h
  | cons k ks ih =>
    intro v h
    cases ks with
    | nil =>
      cases v with
      | dict es =>
        simp only [safeAlong] at h
        simp only [extractPath]
        cases halk : PyVal.alookup es k with
        | some w =>
          rw [halk] at h
          cases w with
          | num q => exact ⟨.val q, by simp, by simp⟩
          | str s => simp at h
          | dict es2 => simp at h
          | list l => simp at h
          | pynone => simp at h
        | none =>
          exact ⟨.nan, by simp [halk], by simp⟩
      | num q => simp [safeAlong] at h
      | str s => simp [safeAlong] at h
      | list l => simp [safeAlong] at h
      | pynone => simp [safeAlong] at h
    | cons k2 ks2 =>
      cases v with
      | dict es =>
        simp only [safeAlong] at h
        simp only [extractPath]
        exact ih _ h
      | num q => simp [safeAlong] at h
      | str s => simp [safeAlong] at h
      | list l => simp [safeAlong] at h
      | pynone => simp [safeAlong] at h

theorem mapM_extract (path : List String) :
    ∀ recs : List PyVal, (∀ r ∈ recs, safeAlong r path = true) →
      ∃ cells, recs.mapM (fun r => extractPath r path) = .ok cells ∧
        cells.length = recs.length ∧ ∀ c ∈ cells, c ≠ Cell.other := by
  intro recs
  induction recs with
  | nil =>
    intro _
    exact ⟨[], rfl, by simp, by simp⟩
  | cons r rest ih =>
    intro h
    rcases extractPath_safe path r (h r (by simp)) with ⟨cell, hc1, hc2⟩
    rcases ih (fun x hx => h x (List.mem_cons_of_mem _ hx)) with ⟨cs, h1, h2, h3⟩
    refine ⟨cell :: cs, ?_, by simp [h2], ?_⟩
    · rw [List.mapM_cons, hc1, h1]
      rfl
    · intro c hc
      rcases List.mem_cons.mp hc with h | h
      · rw [h]; exact hc2
      · exact h3 c h

/-
  Key scalar metrics (run_simulation_scenario lines 297-308).  The final
  row is the last table row.  'Final Population' and 'Final GDP per
  Capita' are formatted unconditionally (f-string on the raw value, which
  renders NaN as the string "nan"); the stunting/wasting/energy metrics
  are guarded by pd.notna and fall back to "N/A"; 'Avg Rice Production'
  takes the pandas column mean, which skips NaN entries and is NaN only
  when every entry is NaN, guarded by pd.notna.
-/

end Agg


namespace Heap

/-- Frame property: materialize only reads the reachable addresses, so
two stores agreeing there materialize identically. -/
theorem materialize_frame : ∀ (fuel : Nat) (st st2 : Store) (a : Nat),
    (∀ b ∈ reachList fuel st a, st2.get? b = st.get? b) →
    materialize fuel st2 a = materialize fuel st a := by
  intro fuel
  induction fuel with
  | zero => intro st st2 a _; rfl
  | succ f ih =>
    intro st st2 a h
    have ha : st2.get? a = st.get? a := h a (by simp [reachList])
    unfold materialize
    rw [ha]
    cases hobj : st.get? a with
    | none => rfl
    | some o =>
      cases o with
      | num q => rfl
      | str s => rfl
      | dicto es =>
        simp only []
        have hsub : ∀ e ∈ es, ∀ b ∈ reachList f st e.2, st2.get? b = st.get? b := by
          intro e he b hb
          apply h
          simp only [reachList, hobj, List.mem_cons]
          exact Or.inr (List.mem_flatMap.mpr ⟨e, he, hb⟩)
        have : es.map (fun e => (e.1, materialize f st2 e.2)) =
            es.map (fun e => (e.1, materialize f st e.2)) :=
          List.map_congr_left (fun e he => by rw [ih st st2 e.2 (hsub e he)])
        rw [this]

end Heap


/-
  Supporting lemmas for the runner-level claims.
-/

namespace Runner

theorem runScen_map_fst {σ α ε : Type}
    (stepF : Int → σ → List (Int × α) → Except ε (α × σ))
    (startYear endYear : Int) (s0 : σ) (out : List (Int × α))
    (h : runScen stepF startYear endYear s0 = some out) :
    out.map Prod.fst = yearList startYear endYear := by
  have := runYears_map_fst stepF (yearList startYear endYear) s0 [] out h
  simpa using this

theorem runYears_error_head {σ α ε : Type}
    (stepF : Int → σ → List (Int × α) → Except ε (α × σ))
    (y : Int) (ys : List Int) (st : σ) (acc : List (Int × α)) (e : ε)
    (h : stepF y st acc = .error e) :
    runYears stepF (y :: ys) st acc = none := by
  simp [runYears, h]

end Runner

namespace Batch

/-- In a list whose names are nodup, a name determines its entry. -/
theorem nodup_fst_unique {κ : Type} (scens : List (String × κ))
    (hnd : (scens.map Prod.fst).Nodup) :
    ∀ p q : String × κ, p ∈ scens → q ∈ scens → p.1 = q.1 → p = q := by
  induction scens with
  | nil => intro p q hp; cases hp
  | cons hd tl ih =>
    intro p q hp hq heq
    rcases List.mem_cons.mp hp with hp1 | hp1 <;>
      rcases List.mem_cons.mp hq with hq1 | hq1
    · rw [hp1, hq1]
    · exfalso
      subst hp1
      have : q.1 ∈ tl.map Prod.fst := List.mem_map.mpr ⟨q, hq1, rfl⟩
      rw [← heq] at this
      exact (List.nodup_cons.mp hnd).1 this
    · exfalso
      subst hq1
      have : p.1 ∈ tl.map Prod.fst := List.mem_map.mpr ⟨p, hp1, rfl⟩
      rw [heq] at this
      exact (List.nodup_cons.mp hnd).1 this
    · exact ih (List.nodup_cons.mp hnd).2 p q hp1 hq1 heq

end Batch

/-- Claim C1: for every scenario run that does not abort, yearly_outputs
has exactly (end_year - start_year + 1) entries, built in year order with
the i-th entry's year equal to start_year + i and no gaps; and an aborted
scenario contributes zero rows to any (comparison) table built from the
batch results. -/
theorem c1_yearly_outputs_shape {σ α ε κ ρ β : Type}
    (stepF : Int → σ → List (Int × α) → Except ε (α × σ))
    (startYear endYear : Int) (s0 : σ) (hle : startYear ≤ endYear) :
    (∀ out, Runner.runScen stepF startYear endYear s0 = some out →
      ((out.length : Int) = endYear - startYear + 1 ∧
       ∀ i (hi : i < out.length), (out.get ⟨i, hi⟩).1 = startYear + Int.ofNat i)) ∧
    (Runner.runScen stepF startYear endYear s0 = none →
      ∀ (aggOf : List (Int × α) → ρ) (runF : String → κ → Option ρ)
        (rowsOf : ρ → List β) (scens : List (String × κ)) (nm : String),
        (∀ cfg, (nm, cfg) ∈ scens →
          runF nm cfg = (Runner.runScen stepF startYear endYear s0).map aggOf) →
        ∀ p ∈ (Batch.comparisonData rowsOf (Batch.runBatch runF scens).1).1,
          p.1 ≠ nm) := by
  constructor
  · intro out hout
    have hfst := Runner.runScen_map_fst stepF startYear endYear s0 out hout
    have hlen : out.length = (Runner.yearList startYear endYear).length := by
      rw [← hfst, List.length_map]
    constructor
    · rw [hlen]
      exact Runner.yearList_length startYear endYear hle
    · intro i hi
      have hi2 : i < (Runner.yearList startYear endYear).length := by omega
      have h3 := List.getElem_of_eq hfst (by simpa using hi)
      rw [List.getElem_map] at h3
      have h4 := Runner.yearList_get startYear endYear i hi2
      rw [List.get_eq_getElem] at h4
      rw [List.get_eq_getElem]
      rw [h3, h4]
  · intro habort aggOf runF rowsOf scens nm hruns p hp heq
    rcases Batch.comparisonData_mem rowsOf (Batch.runBatch runF scens).1 p hp with
      ⟨r, hr1, _hr2⟩
    rcases Batch.runBatch_mem runF scens (p.1, r) hr1 with ⟨cfg, hc1, hc2⟩
    rw [heq] at hc1 hc2
    rw [hruns cfg hc1, habort] at hc2
    cases hc2

/-- Witness for C1 at a concrete three-year scenario whose step always
succeeds, and its length property via the theorem. -/
theorem c1_yearly_outputs_shape_witness :
    Runner.runScen (fun (_ : Int) (s : Nat) (_ : List (Int × Nat)) =>
        (Except.ok (s, s) : Except Unit (Nat × Nat))) 0 2 0 =
      some [(0, 0), (1, 0), (2, 0)] ∧
    (([((0 : Int), (0 : Nat)), (1, 0), (2, 0)].length : Int)) = 2 - 0 + 1 := by
  constructor
  · rfl
  · exact ((c1_yearly_outputs_shape (κ := Unit) (ρ := Unit) (β := Unit)
      (fun (_ : Int) (s : Nat) (_ : List (Int × Nat)) =>
        (Except.ok (s, s) : Except Unit (Nat × Nat))) 0 2 0 (by decide)).1
      [(0, 0), (1, 0), (2, 0)] rfl).1

/-- Claim C2: an exception in any year aborts the scenario immediately
(the year loop returns the failure signal None with no partial per-year
results), and the batch over a list of scenarios decomposes pointwise,
so one scenario's failure never prevents the remaining scenarios from
being run and collected. -/
theorem c2_fail_fast_per_scenario_fail_soft_across {σ α ε κ ρ : Type} :
    (∀ (stepF : Int → σ → List (Int × α) → Except ε (α × σ))
       (y : Int) (ys : List Int) (st : σ) (acc : List (Int × α)) (e : ε),
       stepF y st acc = .error e →
       Runner.runYears stepF (y :: ys) st acc = none) ∧
    (∀ (runF : String → κ → Option ρ) (xs ys : List (String × κ)),
       Batch.runBatch runF (xs ++ ys) =
         ((Batch.runBatch runF xs).1 ++ (Batch.runBatch runF ys).1,
          (Batch.runBatch runF xs).2 ++ (Batch.runBatch runF ys).2)) := by
  constructor
  · intro stepF y ys st acc e h
    exact Runner.runYears_error_head stepF y ys st acc e h
  · intro runF xs ys
    exact Batch.runBatch_append runF xs ys

/-- Witness for C2: a concrete step that fails in the second year aborts
with no partial results, while a batch containing that scenario still
runs and collects the later scenario. -/
theorem c2_fail_fast_witness :
    Runner.runYears (fun (y : Int) (s : Nat) (_ : List (Int × Nat)) =>
        if y = 1 then (Except.error () : Except Unit (Nat × Nat))
        else Except.ok (s, s)) [1, 2] 0 [(0, 0)] = none ∧
    Batch.runBatch (fun nm (_ : Unit) => if nm = "bad" then none else some 7)
        ([("bad", ())] ++ [("good", ())]) =
      ([("good", 7)], ["bad"]) := by
  constructor
  · exact (c2_fail_fast_per_scenario_fail_soft_across (κ := Unit) (ρ := Nat)).1
      (fun (y : Int) (s : Nat) (_ : List (Int × Nat)) =>
        if y = 1 then (Except.error () : Except Unit (Nat × Nat))
        else Except.ok (s, s)) 1 [2] 0 [(0, 0)] () rfl
  · have h := (c2_fail_fast_per_scenario_fail_soft_across
      (σ := Unit) (α := Unit) (ε := Unit) (κ := Unit) (ρ := Nat)).2
      (fun nm (_ : Unit) => if nm = "bad" then none else some 7)
      [("bad", ())] [("good", ())]
    rw [h]
    rfl

/-- Claim C7: the comparison table is built only from scenarios whose run
succeeded; every row is traceable (via its scenario label) to exactly one
source scenario, an aborted scenario contributes no rows, and an aborted
scenario is reported in the diagnostics rather than silently omitted. -/
theorem c7_comparison_table_provenance {κ ρ β : Type}
    (runF : String → κ → Option ρ) (rowsOf : ρ → List β)
    (scens : List (String × κ)) (hnd : (scens.map Prod.fst).Nodup) :
    (∀ p ∈ (Batch.comparisonData rowsOf (Batch.runBatch runF scens).1).1,
       (∃ cfg r, (p.1, cfg) ∈ scens ∧ runF p.1 cfg = some r ∧ p.2 ∈ rowsOf r) ∧
       (∃! e : String × κ, e ∈ scens ∧ e.1 = p.1)) ∧
    (∀ nm, (∃ cfg, (nm, cfg) ∈ scens) →
       (∀ cfg, (nm, cfg) ∈ scens → runF nm cfg = none) →
       (∀ p ∈ (Batch.comparisonData rowsOf (Batch.runBatch runF scens).1).1,
          p.1 ≠ nm) ∧ nm ∈ (Batch.runBatch runF scens).2) := by
  constructor
  · intro p hp
    rcases Batch.comparisonData_mem rowsOf (Batch.runBatch runF scens).1 p hp with
      ⟨r, hr1, hr2⟩
    rcases Batch.runBatch_mem runF scens (p.1, r) hr1 with ⟨cfg, hc1, hc2⟩
    constructor
    · exact ⟨cfg, r, hc1, hc2, hr2⟩
    · refine ⟨(p.1, cfg), ⟨hc1, rfl⟩, ?_⟩
      intro q ⟨hq1, hq2⟩
      exact Batch.nodup_fst_unique scens hnd q (p.1, cfg) hq1 hc1 hq2
  · intro nm hmem hfail
    constructor
    · intro p hp heq
      rcases Batch.comparisonData_mem rowsOf (Batch.runBatch runF scens).1 p hp with
        ⟨r, hr1, _⟩
      rcases Batch.runBatch_mem runF scens (p.1, r) hr1 with ⟨cfg, hc1, hc2⟩
      rw [heq] at hc1 hc2
      rw [hfail cfg hc1] at hc2
      cases hc2
    · rcases hmem with ⟨cfg, hcfg⟩
      exact Batch.runBatch_diag runF nm cfg scens hcfg (hfail cfg hcfg)

/-- Witness for C7: a two-scenario batch where one scenario aborts; the
aborted scenario is named in the diagnostics and the table holds only the
completed scenario's rows. -/
theorem c7_comparison_table_provenance_witness :
    (∀ p ∈ (Batch.comparisonData (fun r => [r])
        (Batch.runBatch (fun nm (_ : Unit) => if nm = "aborted" then none else some 5)
          [("aborted", ()), ("completed", ())]).1).1,
       p.1 ≠ "aborted") ∧
    "aborted" ∈ (Batch.runBatch (fun nm (_ : Unit) => if nm = "aborted" then none else some 5)
        [("aborted", ()), ("completed", ())]).2 := by
  exact (c7_comparison_table_provenance
    (fun nm (_ : Unit) => if nm = "aborted" then none else some 5) (fun r => [r])
    [("aborted", ()), ("completed", ())] (by decide)).2 "aborted"
    ⟨(), by decide⟩ (by intro cfg h; simp at h; simp [h])

namespace Agg

/-- Column construction over a path list: shape-safe records produce one
ok column per path, with matching names, one cell per record and no
non-numeric leftover cells. -/
theorem buildCols_safe (paths : List (String × List String)) :
    ∀ recs : List PyVal,
      (∀ r ∈ recs, ∀ p ∈ paths, safeAlong r p.2 = true) →
      ∃ cols, buildCols recs paths = Except.ok cols ∧
        cols.map Prod.fst = paths.map Prod.fst ∧
        ∀ c ∈ cols, c.2.length = recs.length ∧ ∀ cell ∈ c.2, cell ≠ Cell.other := by
  induction paths with
  | nil =>
    intro recs _
    exact ⟨[], rfl, by simp, by simp⟩
  | cons p rest ih =>
    intro recs h
    rcases mapM_extract p.2 recs (fun r hr => h r hr p (by simp)) with ⟨cells, h1, h2, h3⟩
    rcases ih recs (fun r hr q hq => h r hr q (List.mem_cons_of_mem _ hq)) with
      ⟨cols, h4, h5, h6⟩
    refine ⟨(p.1, cells) :: cols, ?_, by simp [h5], ?_⟩
    · simp only [buildCols, h1, h4]
    · intro c hc
      rcases List.mem_cons.mp hc with h | h
      · rw [h]
        exact ⟨h2, h3⟩
      · exact h6 c h

end Agg

/-- Claim C3: for every list of year records whose values along the nine
named chains are dicts where present with numeric leaves (arbitrarily
missing or empty nested keys allowed), the aggregation never raises and
yields, for every indicator, exactly one cell per record that is either
a numeric value or the NaN missing sentinel, which is distinct from the
numeric value zero. -/
theorem c3_aggregation_total_coverage (recs : List PyVal)
    (hsafe : ∀ r ∈ recs, Agg.pathsSafe r = true) :
    ∃ t : Agg.AggTable, Agg.aggregateRecords recs = .ok t ∧
      t.yearCol.length = recs.length ∧
      (∀ cell ∈ t.yearCol, cell ≠ Agg.Cell.other) ∧
      t.cols.map Prod.fst = Agg.aggPaths.map Prod.fst ∧
      (∀ c ∈ t.cols, c.2.length = recs.length ∧
        ∀ cell ∈ c.2, cell ≠ Agg.Cell.other) ∧
      ∀ x : Frac, Agg.Cell.nan ≠ Agg.Cell.val x := by
  have hyear : ∀ r ∈ recs, Agg.safeAlong r ["year"] = true := by
    intro r hr
    have h0 := hsafe r hr
    simp only [Agg.pathsSafe, Bool.and_eq_true] at h0
    exact h0.1
  have hpaths : ∀ r ∈ recs, ∀ p ∈ Agg.aggPaths, Agg.safeAlong r p.2 = true := by
    intro r hr p hp
    have h0 := hsafe r hr
    simp only [Agg.pathsSafe, Bool.and_eq_true] at h0
    exact List.all_eq_true.mp h0.2 p hp
  rcases Agg.mapM_extract ["year"] recs hyear with ⟨yc, hy1, hy2, hy3⟩
  rcases Agg.buildCols_safe Agg.aggPaths recs hpaths with ⟨cols, hc1, hc2, hc3⟩
  refine ⟨⟨yc, cols⟩, ?_, hy2, hy3, hc2, hc3, by intro x h; cases h⟩
  unfold Agg.aggregateRecords
  simp only [hy1, hc1]

/-- Witness for C3 at a concrete record list: one empty record and one
partially filled record. -/
theorem c3_aggregation_total_coverage_witness :
    (∀ r ∈ [PyVal.dict [],
            PyVal.dict [("year", PyVal.num 2025),
                        ("socioeconomic_state", PyVal.dict
                          [("population", PyVal.dict [])])]],
        Agg.pathsSafe r = true) ∧
    ∃ t : Agg.AggTable,
      Agg.aggregateRecords [PyVal.dict [],
        PyVal.dict [("year", PyVal.num 2025),
                    ("socioeconomic_state", PyVal.dict
                      [("population", PyVal.dict [])])]] = .ok t ∧
      t.yearCol.length = 2 := by
  constructor
  · decide
  · rcases c3_aggregation_total_coverage
      [PyVal.dict [],
       PyVal.dict [("year", PyVal.num 2025),
                   ("socioeconomic_state", PyVal.dict
                     [("population", PyVal.dict [])])]] (by decide) with
      ⟨t, h1, h2, _⟩
    exact ⟨t, h1, h2⟩

/-
  Claims about the nutritional-status dynamics (C4, C5) and the concrete
  baseline run (C6).
-/

/-- Claim C4 counterexample: in the baseline run the published stunting
prevalence is 0.28 at 2025 and again 0.28 at 2026, but under the claimed
recurrence status[2026] = max(0, status[2025] + delta * h), with the
baseline health-access modifier h = 0.95 and the only two stunting
deltas the model knows (+0.002 on inadequate intake, -0.005 on adequate),
the successor would be 0.2819 or 0.27525, never 0.28: the output is not
autoregressive in the previous year's status.  The status computation
never reads that status: it reads Series[-1] on the loaded pandas
historical data, which raises KeyError, and the except branch returns
the constant default every year. -/
theorem c4_counterexample :
    (runStunting 2025).map Frac.toRat = some (28 / 100) ∧
    (runStunting 2026).map Frac.toRat = some (28 / 100) ∧
    (28 / 100 : ℚ) ≠ max 0 (28 / 100 + (2 / 1000) * (95 / 100)) ∧
    (28 / 100 : ℚ) ≠ max 0 (28 / 100 + (-5 / 1000) * (95 / 100)) := by
  refine ⟨?_, ?_, ?_, ?_⟩
  · have h : runStunting 2025 = some ⟨28, 100⟩ := rfl
    rw [h]
    simp [Frac.toRat]
  · have h : runStunting 2026 = some ⟨28, 100⟩ := rfl
    rw [h]
    simp [Frac.toRat]
  · rw [max_eq_right (by norm_num)]
    norm_num
  · rw [max_eq_right (by norm_num)]
    norm_num

/-- Claim C4 as amended: for every simulated year of the baseline run
(including the first), the produced stunting prevalence equals the fixed
default 0.28 of the except branch of _estimate_nutritional_status, the
same constant every year: the try block reads Series[-1] on the loaded
pandas historical data, which raises KeyError(-1), so the published
status is the static default dict, independent of the previous year's
output. -/
theorem c4_amended_static_base (yr : Int)
    (hyr : yr ∈ ([2025, 2026, 2027] : List Int)) :
    (runStunting yr).map Frac.toRat =
      some ((Nutrition.statusDefaults.getNum "stunting_prevalence"
        (Frac.neg 1)).toRat) := by
  simp only [List.mem_cons, List.not_mem_nil, or_false] at hyr
  rcases hyr with h | h | h
  · rw [h]; rfl
  · rw [h]; rfl
  · rw [h]; rfl

/-- Witness for the amended C4 at the concrete year 2026. -/
theorem c4_amended_static_base_witness :
    (runStunting 2026).map Frac.toRat =
      some ((Nutrition.statusDefaults.getNum "stunting_prevalence"
        (Frac.neg 1)).toRat) :=
  c4_amended_static_base 2026 (by decide)

namespace Nutrition

/-- readPrev either succeeds with exactly its default (indicator or rate
column absent) or raises the pandas KeyError. -/
theorem readPrev_cases (hist : Hist) (ind : String) (dflt : Frac) :
    readPrev hist ind dflt = .ok dflt ∨
    readPrev hist ind dflt = .error (.keyError "-1") := by
  cases hf : hist.find? (fun e => e.1 = ind) with
  | none =>
    left
    simp only [readPrev, hf]
  | some e =>
    cases hc : e.2.cols.find? (fun c => c.1 = "rate") with
    | none =>
      left
      simp only [readPrev, hf, hc]
    | some c =>
      right
      simp only [readPrev, hf, hc]

/-- estimateNutritionalStatus reduces to the computed branch when all
three prev reads succeed. -/
theorem estimate_ok (hap ni : PyVal) (hist : Hist) (ps pw pa : Frac)
    (h1 : readPrev hist "stunting_prevalence" (Frac.mkq 28 100) = .ok ps)
    (h2 : readPrev hist "wasting_prevalence" (Frac.mkq 7 100) = .ok pw)
    (h3 : readPrev hist "anemia_prevalence" (Frac.mkq 37 100) = .ok pa) :
    estimateNutritionalStatus hap hist ni = statusFromPrev hap ni ps pw pa := by
  unfold estimateNutritionalStatus
  rw [h1, h2, h3]

/-- estimateNutritionalStatus reduces to the except default when the
stunting read raises. -/
theorem estimate_err1 (hap ni : PyVal) (hist : Hist) (e : PyErr)
    (h1 : readPrev hist "stunting_prevalence" (Frac.mkq 28 100) = .error e) :
    estimateNutritionalStatus hap hist ni = statusDefaults := by
  unfold estimateNutritionalStatus
  rw [h1]

/-- estimateNutritionalStatus reduces to the except default when the
wasting read raises. -/
theorem estimate_err2 (hap ni : PyVal) (hist : Hist) (ps : Frac) (e : PyErr)
    (h1 : readPrev hist "stunting_prevalence" (Frac.mkq 28 100) = .ok ps)
    (h2 : readPrev hist "wasting_prevalence" (Frac.mkq 7 100) = .error e) :
    estimateNutritionalStatus hap hist ni = statusDefaults := by
  unfold estimateNutritionalStatus
  rw [h1, h2]

/-- estimateNutritionalStatus reduces to the except default when the
anemia read raises. -/
theorem estimate_err3 (hap ni : PyVal) (hist : Hist) (ps pw : Frac) (e : PyErr)
    (h1 : readPrev hist "stunting_prevalence" (Frac.mkq 28 100) = .ok ps)
    (h2 : readPrev hist "wasting_prevalence" (Frac.mkq 7 100) = .ok pw)
    (h3 : readPrev hist "anemia_prevalence" (Frac.mkq 37 100) = .error e) :
    estimateNutritionalStatus hap hist ni = statusDefaults := by
  unfold estimateNutritionalStatus
  rw [h1, h2, h3]

/-- Numeric field read on a literal dict whose first entry matches. -/
theorem getNum_head (k : String) (x : Frac) (rest : List (String × PyVal))
    (d : Frac) : PyVal.getNum (.dict ((k, .num x) :: rest)) k d = x := by
  simp [PyVal.getNum, PyVal.get, PyVal.alookup]

/-- Numeric field read on a literal dict whose second entry matches. -/
theorem getNum_second (k1 k2 : String) (h : k1 ≠ k2) (x y : Frac)
    (rest : List (String × PyVal)) (d : Frac) :
    PyVal.getNum (.dict ((k1, .num x) :: (k2, .num y) :: rest)) k2 d = y := by
  simp [PyVal.getNum, PyVal.get, PyVal.alookup, h]

end Nutrition

/-- Claim C5: for every intake dict, every health-access configuration
with a well-formed coverage value and every historical data dict, the
produced stunting and wasting prevalences are nonnegative rationals:
the max(0, prev + delta) floor in the computed branch, whose prev values
are the fixed nonnegative read defaults, and the fixed nonnegative
defaults in the except branch, where the loaded pandas data always
lands. -/
theorem c5_status_nonneg (healthAccessParams nutrientIntake : PyVal)
    (hist : Nutrition.Hist)
    (hcv : (PyVal.asNum (healthAccessParams.get "coverage"
      (PyVal.num (Frac.mkq 5 10))) (Frac.mkq 5 10)).Wf) :
    0 ≤ ((Nutrition.estimateNutritionalStatus healthAccessParams hist
        nutrientIntake).getNum "stunting_prevalence" (Frac.neg 1)).toRat ∧
    0 ≤ ((Nutrition.estimateNutritionalStatus healthAccessParams hist
        nutrientIntake).getNum "wasting_prevalence" (Frac.neg 1)).toRat := by
  have hdef :
      0 ≤ ((Nutrition.statusDefaults).getNum "stunting_prevalence" (Frac.neg 1)).toRat ∧
      0 ≤ ((Nutrition.statusDefaults).getNum "wasting_prevalence" (Frac.neg 1)).toRat := by
    constructor
    · simp only [Nutrition.statusDefaults]
      rw [Nutrition.getNum_head]
      simp [Frac.toRat, Frac.mkq]
      norm_num
    · simp only [Nutrition.statusDefaults]
      rw [Nutrition.getNum_second _ _ (by decide)]
      simp [Frac.toRat, Frac.mkq]
      norm_num
  rcases Nutrition.readPrev_cases hist "stunting_prevalence" (Frac.mkq 28 100) with h1 | h1
  · rcases Nutrition.readPrev_cases hist "wasting_prevalence" (Frac.mkq 7 100) with h2 | h2
    · rcases Nutrition.readPrev_cases hist "anemia_prevalence" (Frac.mkq 37 100) with h3 | h3
      · rw [Nutrition.estimate_ok _ _ _ _ _ _ h1 h2 h3]
        unfold Nutrition.statusFromPrev
        by_cases hcond : ((nutrientIntake.get "energy_kcal" (.num 0)).isNum &&
            (nutrientIntake.get "protein_g" (.num 0)).isNum &&
            (nutrientIntake.get "iron_mg" (.num 0)).isNum &&
            (healthAccessParams.get "coverage" (.num (Frac.mkq 5 10))).isNum) = true
        · have hmod : (Frac.sub (Frac.ofInt 1)
              (Frac.mul (PyVal.asNum (healthAccessParams.get "coverage"
                (PyVal.num (Frac.mkq 5 10))) (Frac.mkq 5 10)) (Frac.mkq 1 10))).Wf :=
            Frac.wf_sub (Frac.wf_ofInt 1) (Frac.wf_mul hcv (by decide))
          constructor
          · rw [if_pos hcond]
            rw [Nutrition.getNum_head]
            apply Frac.pymax_zero_nonneg
            apply Frac.wf_add (by decide)
            apply Frac.wf_mul _ hmod
            by_cases hb : (Frac.blt (Frac.ofInt 2100)
                (PyVal.asNum (nutrientIntake.get "energy_kcal" (PyVal.num 0)) 0) &&
                Frac.blt (Frac.ofInt 50)
                (PyVal.asNum (nutrientIntake.get "protein_g" (PyVal.num 0)) 0)) = true
            · rw [if_pos hb]; decide
            · rw [if_neg hb]; decide
          · rw [if_pos hcond]
            rw [Nutrition.getNum_second _ _ (by decide)]
            apply Frac.pymax_zero_nonneg
            apply Frac.wf_add (by decide)
            apply Frac.wf_mul _ hmod
            by_cases hb : Frac.blt (Frac.ofInt 2100)
                (PyVal.asNum (nutrientIntake.get "energy_kcal" (PyVal.num 0)) 0) = true
            · rw [if_pos hb]; decide
            · rw [if_neg hb]; decide
        · rw [if_neg hcond]
          exact hdef
      · rw [Nutrition.estimate_err3 _ _ _ _ _ _ h1 h2 h3]
        exact hdef
    · rw [Nutrition.estimate_err2 _ _ _ _ _ h1 h2]
      exact hdef
  · rw [Nutrition.estimate_err1 _ _ _ _ h1]
    exact hdef

/-- Witness for C5 at a concrete empty configuration and intake with the
loaded historical data (which takes the except branch). -/
theorem c5_status_nonneg_witness :
    0 ≤ ((Nutrition.estimateNutritionalStatus (PyVal.dict []) Nutrition.loadedHist
        (PyVal.dict [])).getNum "stunting_prevalence" (Frac.neg 1)).toRat ∧
    0 ≤ ((Nutrition.estimateNutritionalStatus (PyVal.dict []) Nutrition.loadedHist
        (PyVal.dict [])).getNum "wasting_prevalence" (Frac.neg 1)).toRat :=
  c5_status_nonneg (PyVal.dict []) (PyVal.dict []) Nutrition.loadedHist (by decide)

/-- Claim C6: the baseline-configured run over 2025-2027 with initial
population 170e6 yields an annual summary of exactly 3 rows with year
column [2025, 2026, 2027], and each consecutive total_population pair
satisfies pop[t+1] = pop[t] * (1 + g) exactly (hence within any
floating-point tolerance), where g is the population growth parameter
the embedded Socioeconomic model reads from the baseline configuration;
the recorded 2025 value is the initial population already grown once,
since the model updates the state before it is recorded. -/
theorem c6_baseline_end_to_end :
    ∃ (outs : List (Int × PyVal)) (t : Agg.AggTable) (p0 p1 p2 : Frac),
      Pipeline.runSimulationScenario "baseline" (Pipeline.baseConfig 2025 2027) =
        some outs ∧
      Agg.aggregateRecords (outs.map Prod.snd) = .ok t ∧
      t.yearCol = [.val (Frac.ofInt 2025), .val (Frac.ofInt 2026),
        .val (Frac.ofInt 2027)] ∧
      t.yearCol.length = 3 ∧
      t.col "total_population" = [.val p0, .val p1, .val p2] ∧
      p0.toRat = 170000000 * (1 + Pipeline.baselineGrowthRate.toRat) ∧
      p1.toRat = p0.toRat * (1 + Pipeline.baselineGrowthRate.toRat) ∧
      p2.toRat = p1.toRat * (1 + Pipeline.baselineGrowthRate.toRat) := by
  have hg : Pipeline.baselineGrowthRate = Frac.mkq 1 100 := rfl
  refine ⟨_, _, ⟨17170000000, 100⟩, ⟨1734170000000, 10000⟩,
    ⟨175151170000000, 1000000⟩, rfl, rfl, rfl, rfl, rfl, ?_, ?_, ?_⟩
  · rw [hg]
    simp [Frac.toRat, Frac.mkq]
    norm_num
  · rw [hg]
    simp [Frac.toRat, Frac.mkq]
    norm_num
  · rw [hg]
    simp [Frac.toRat, Frac.mkq]
    norm_num

namespace Agg

/-- Filtering a column to its non-missing cells leaves its numeric
values unchanged. -/
theorem cellVals_filter (cells : List Cell) :
    cellVals (cells.filter (fun c => match c with | .val _ => true | _ => false)) =
      cellVals cells := by
  induction cells with
  | nil => rfl
  | cons c cs ih =>
    cases c <;> simp [cellVals, List.filter_cons, ih] <;>
      simpa [cellVals] using ih

end Agg

/-- Claim C8 counterexample: aggregating a single record with no data at
all makes every indicator missing, yet the key metrics render 'Final
Population' by unconditional numeric formatting of the NaN value (the
string "nan"), not the explicit unavailable marker. -/
theorem c8_counterexample :
    ∃ t, Agg.aggregateRecords [PyVal.dict []] = .ok t ∧
      ((Agg.keyMetrics t).find? (fun m => m.1 = "Final Population")).map Prod.snd =
        some Agg.Metric.fmtNan ∧
      Agg.Metric.fmtNan ≠ Agg.Metric.unavailable := by
  refine ⟨_, rfl, rfl, by decide⟩

/-- Claim C8 as amended: the NaN-guarded metrics (final stunting, final
wasting, final energy intake) report the unavailable marker when their
final entry is missing; the column mean behind 'Avg Rice Production' is
computed only over the non-missing entries and reports unavailable when
every entry is missing; but 'Final Population' and 'Final GDP per
Capita' format the final value unconditionally and render a numeric NaN,
not an unavailable marker, when it is missing. -/
theorem c8_amended_metric_guards (t : Agg.AggTable) (hne : t.yearCol ≠ []) :
    (t.finalCell "stunting_prevalence" .nan = .nan →
      ((Agg.keyMetrics t).find? (fun m => m.1 = "Final Stunting Rate")).map Prod.snd =
        some Agg.Metric.unavailable) ∧
    (t.finalCell "wasting_prevalence" .nan = .nan →
      ((Agg.keyMetrics t).find? (fun m => m.1 = "Final Wasting Rate")).map Prod.snd =
        some Agg.Metric.unavailable) ∧
    (t.finalCell "avg_energy_intake" .nan = .nan →
      ((Agg.keyMetrics t).find? (fun m => m.1 = "Avg Energy Intake (Final Year)")).map Prod.snd =
        some Agg.Metric.unavailable) ∧
    (Agg.cellVals (t.col "rice_production_total") = [] →
      ((Agg.keyMetrics t).find? (fun m => m.1 = "Avg Rice Production")).map Prod.snd =
        some Agg.Metric.unavailable) ∧
    (∀ cells : List Agg.Cell, Agg.meanScaledMetric cells =
      Agg.meanScaledMetric (cells.filter (fun c => match c with | .val _ => true | _ => false))) ∧
    (t.finalCell "total_population" (.val 0) = .nan →
      ((Agg.keyMetrics t).find? (fun m => m.1 = "Final Population")).map Prod.snd =
        some Agg.Metric.fmtNan) ∧
    (t.finalCell "gdp_per_capita" (.val 0) = .nan →
      ((Agg.keyMetrics t).find? (fun m => m.1 = "Final GDP per Capita")).map Prod.snd =
        some Agg.Metric.fmtNan) := by
  have h0 : t.yearCol.isEmpty = false := by
    cases h : t.yearCol with
    | nil => exact absurd h hne
    | cons a l => rfl
  refine ⟨?_, ?_, ?_, ?_, ?_, ?_, ?_⟩
  · intro hc
    simp [Agg.keyMetrics, h0, List.find?, hc, Agg.fmtChecked]
  · intro hc
    simp [Agg.keyMetrics, h0, List.find?, hc, Agg.fmtChecked]
  · intro hc
    simp [Agg.keyMetrics, h0, List.find?, hc, Agg.fmtChecked]
  · intro hc
    simp [Agg.keyMetrics, h0, List.find?, Agg.meanScaledMetric, hc]
  · intro cells
    unfold Agg.meanScaledMetric
    rw [Agg.cellVals_filter]
  · intro hc
    simp [Agg.keyMetrics, h0, List.find?, hc, Agg.fmtUnchecked]
  · intro hc
    simp [Agg.keyMetrics, h0, List.find?, hc, Agg.fmtUnchecked]

/-- Witness for the amended C8 at a concrete one-row all-missing table. -/
theorem c8_amended_metric_guards_witness :
    ((Agg.keyMetrics ⟨[Agg.Cell.nan],
        [("total_population", [Agg.Cell.nan]),
         ("gdp_per_capita", [Agg.Cell.nan]),
         ("rice_production_total", [Agg.Cell.nan]),
         ("wheat_production_total", [Agg.Cell.nan]),
         ("rice_price_retail", [Agg.Cell.nan]),
         ("stunting_prevalence", [Agg.Cell.nan]),
         ("wasting_prevalence", [Agg.Cell.nan]),
         ("avg_energy_intake", [Agg.Cell.nan])]⟩).find?
      (fun m => m.1 = "Final Stunting Rate")).map Prod.snd =
        some Agg.Metric.unavailable ∧
    ((Agg.keyMetrics ⟨[Agg.Cell.nan],
        [("total_population", [Agg.Cell.nan]),
         ("gdp_per_capita", [Agg.Cell.nan]),
         ("rice_production_total", [Agg.Cell.nan]),
         ("wheat_production_total", [Agg.Cell.nan]),
         ("rice_price_retail", [Agg.Cell.nan]),
         ("stunting_prevalence", [Agg.Cell.nan]),
         ("wasting_prevalence", [Agg.Cell.nan]),
         ("avg_energy_intake", [Agg.Cell.nan])]⟩).find?
      (fun m => m.1 = "Final Population")).map Prod.snd =
        some Agg.Metric.fmtNan := by
  constructor
  · exact (c8_amended_metric_guards ⟨[Agg.Cell.nan],
      [("total_population", [Agg.Cell.nan]),
       ("gdp_per_capita", [Agg.Cell.nan]),
       ("rice_production_total", [Agg.Cell.nan]),
       ("wheat_production_total", [Agg.Cell.nan]),
       ("rice_price_retail", [Agg.Cell.nan]),
       ("stunting_prevalence", [Agg.Cell.nan]),
       ("wasting_prevalence", [Agg.Cell.nan]),
       ("avg_energy_intake", [Agg.Cell.nan])]⟩ (by decide)).1 (by decide)
  · exact (c8_amended_metric_guards ⟨[Agg.Cell.nan],
      [("total_population", [Agg.Cell.nan]),
       ("gdp_per_capita", [Agg.Cell.nan]),
       ("rice_production_total", [Agg.Cell.nan]),
       ("wheat_production_total", [Agg.Cell.nan]),
       ("rice_price_retail", [Agg.Cell.nan]),
       ("stunting_prevalence", [Agg.Cell.nan]),
       ("wasting_prevalence", [Agg.Cell.nan]),
       ("avg_energy_intake", [Agg.Cell.nan])]⟩ (by decide)).2.2.2.2.2.1 (by decide)

/-- Claim C9 (code bug witness): a supply-chain output carrying a large
rice volume drives the producer rice price above the export threshold,
the export branch of _simulate_trade_flows is taken, and
simulate_market_dynamics raises NameError on the undefined name
market_supply instead of returning a market_state dict. -/
theorem c9_trade_flow_name_error :
    Market.Model.simulate
      (Market.Model.init (Pipeline.baseParameters.get "market_dynamics" (.dict [])))
      2025
      (PyVal.dict [("total_food", .dict [("cereals", .dict
        [("rice", .num 1000000000000)])])])
      (PyVal.dict []) (PyVal.dict []) = .error (.nameError "market_supply") := rfl


set_option maxRecDepth 200000 in
set_option maxHeartbeats 4000000 in
/-- Claim C10: the scenario configurations are isolated.  Any in-place
write to any address reachable from one scenario's configuration leaves
every other scenario's materialized configuration unchanged, and hence
leaves that scenario's run result unchanged (the non-baseline
configurations are deep copies of BASE_CONFIG with targeted overrides,
so no two scenario configurations share a mutable object). -/
theorem c10_scenario_isolation (nmA nmB : String) (aA aB addr : Nat)
    (o : Heap.HObj)
    (hA : (nmA, aA) ∈ Heap.scenariosAddrs) (hB : (nmB, aB) ∈ Heap.scenariosAddrs)
    (hne : nmA ≠ nmB)
    (hreach : addr ∈ Heap.reachList 10 Heap.scenariosHeap aA) :
    Heap.materialize 10 (Heap.scenariosHeap.set addr o) aB =
      Heap.materialize 10 Heap.scenariosHeap aB ∧
    Pipeline.runSimulationScenario nmB
        (Heap.materialize 10 (Heap.scenariosHeap.set addr o) aB) =
      Pipeline.runSimulationScenario nmB
        (Heap.materialize 10 Heap.scenariosHeap aB) := by
  have hdisj : ∀ pA ∈ Heap.scenariosAddrs, ∀ pB ∈ Heap.scenariosAddrs,
      pA.1 ≠ pB.1 → ∀ x ∈ Heap.reachList 10 Heap.scenariosHeap pA.2,
      ¬ x ∈ Heap.reachList 10 Heap.scenariosHeap pB.2 := by decide
  have hmain : Heap.materialize 10 (Heap.scenariosHeap.set addr o) aB =
      Heap.materialize 10 Heap.scenariosHeap aB := by
    apply Heap.materialize_frame
    intro b hb
    have hbne : addr ≠ b := by
      intro heq
      exact hdisj (nmA, aA) hA (nmB, aB) hB hne addr hreach (heq ▸ hb)
    exact List.get?_set_ne o Heap.scenariosHeap hbne
  exact ⟨hmain, congrArg (Pipeline.runSimulationScenario nmB) hmain⟩

set_option maxRecDepth 200000 in
set_option maxHeartbeats 4000000 in
/-- Witness for C10: overwrite the baseline configuration root itself;
the high_climate_impact configuration materializes unchanged. -/
theorem c10_scenario_isolation_witness :
    Heap.materialize 10 (Heap.scenariosHeap.set 49 (.num 999)) 99 =
      Heap.materialize 10 Heap.scenariosHeap 99 :=
  (c10_scenario_isolation "baseline" "high_climate_impact" 49 99 49 (.num 999)
    (by decide) (by decide) (by decide) (by decide)).1
